import Mathlib

/-!
Verification development for the pdf-consolidator merge core.

Shallow embedding of `src/core/models.py`, `src/core/pdf_probe.py` and
`src/core/merge_service.py`.  The external PDF codec (pypdf / PyMuPDF), the
filesystem and the password dialog are modelled as explicit environment data
(`MergeEnv`, `ProbeEnv`): each queued file's path is mapped to the codec
behaviour observed when that file is opened, and the write phase's outcome is
an explicit environment value.  Wall-clock duration and logging are not
modelled (they carry no information the specification claims depend on).
-/

namespace PDFConsolidator

/-- `FileStatus` enum from `src/core/models.py`. -/
inductive FileStatus
  | pending
  | ready
  | processing
  | merged
  | skipped
  | encrypted
  | corrupt
  | notPdf
  | error
  deriving DecidableEq, Repr

/-- `EncryptionHandlingMode` enum from `src/core/models.py`. -/
inductive EncryptionHandlingMode
  | skip
  | promptEach
  | singlePassword
  deriving DecidableEq, Repr

/-- `QueuedPDF` dataclass from `src/core/models.py` (display-only helper
fields such as `order_index`, `size_mb` and `modified_time` are carried or
omitted as the merge logic needs them). -/
structure QueuedPDF where
  filePath : String
  fileName : String := ""
  sizeBytes : Nat := 0
  pageCount : Option Nat := none
  status : FileStatus := FileStatus.pending
  statusMessage : String := ""
  skipReason : String := ""
  sha256Hash : Option String := none
  isEncrypted : Bool := false
  passwordProvided : Bool := false
  deriving DecidableEq, Repr

/-- `QueuedPDF.status_display` from `src/core/models.py`. -/
def QueuedPDF.status_display (p : QueuedPDF) : String :=
  let base :=
    match p.status with
    | FileStatus.pending => "Pending"
    | FileStatus.ready => "Ready"
    | FileStatus.processing => "Processing..."
    | FileStatus.merged => "Merged"
    | FileStatus.skipped => "Skipped"
    | FileStatus.encrypted => "Encrypted"
    | FileStatus.corrupt => "Corrupt"
    | FileStatus.notPdf => "Not a PDF"
    | FileStatus.error => "Error"
  if p.statusMessage = "" then base else base ++ ": " ++ p.statusMessage

/-- `QueuedPDF.manifest_status` property from `src/core/models.py`
(lines 113-131).  Python's `or` on strings treats `""` as falsy. -/
def QueuedPDF.manifest_status (p : QueuedPDF) : String :=
  match p.status with
  | FileStatus.merged => "Merged"
  | FileStatus.skipped =>
      "Skipped - " ++ (if p.skipReason = "" then "user choice" else p.skipReason)
  | FileStatus.encrypted =>
      if p.skipReason = "" then "Encrypted - skipped"
      else "Encrypted - " ++ p.skipReason
  | FileStatus.corrupt => "Skipped - corrupt/unreadable"
  | FileStatus.notPdf => "Skipped - not a PDF"
  | FileStatus.error =>
      "Error - " ++ (if p.statusMessage = "" then "unknown" else p.statusMessage)
  | FileStatus.pending => "Pending"
  | FileStatus.ready => "Pending"
  | FileStatus.processing => p.status_display

/-- `QueuedPDF.is_valid_for_merge` property from `src/core/models.py`. -/
def QueuedPDF.is_valid_for_merge (p : QueuedPDF) : Bool :=
  p.status = FileStatus.pending ∨ p.status = FileStatus.ready

/-- `MergeManifestEntry` dataclass from `src/core/models.py`. -/
structure MergeManifestEntry where
  index : Nat
  fileName : String
  fullPath : String
  sizeBytes : Nat
  pageCount : Option Nat
  status : String
  sha256Hash : Option String := none
  deriving DecidableEq, Repr

/-- `MergeResult` dataclass from `src/core/models.py`.  `duration_seconds`
(wall clock) is not modelled. -/
structure MergeResult where
  success : Bool
  outputPath : Option String := none
  mergedCount : Nat := 0
  skippedCount : Nat := 0
  errorCount : Nat := 0
  totalPages : Nat := 0
  totalSizeBytes : Nat := 0
  errorMessage : String := ""
  manifestEntries : List MergeManifestEntry := []
  deriving DecidableEq, Repr

/-!
### Codec and environment model

The merge engine opens each file through pypdf (`PdfReader`).  A given file's
observable codec behaviour during the run is fixed: either opening raises
`PdfReadError`, raises some other exception, or yields a reader with an
encryption flag, a decrypt primitive, and a page enumeration (pages are
identified by abstract labels; their order is the file's internal page
order).  `reader.pages` is lazy, so the enumeration itself can raise after
having yielded a prefix of the pages — those pages have already been added to
the writer and counted when the exception reaches the per-file handlers.
-/

/-- Outcome of `reader.decrypt(password)` for one password. -/
inductive DecryptOutcome
  | ok
  | failed
  | raised (msg : String)
  deriving DecidableEq, Repr

/-- Behaviour of the lazy page enumeration `reader.pages` once iteration
starts: either it yields all pages and ends, or it raises `PdfReadError`
(resp. some other exception) after yielding a prefix — covering both a
failing `next()` and a failing `writer.add_page`. -/
inductive PageStream
  | ok (pages : List Nat)
  | readErrorAfter (pre : List Nat) (msg : String)
  | errorAfter (pre : List Nat) (msg : String)
  deriving DecidableEq, Repr

/-- The pages the enumeration yields before ending or raising: exactly the
pages the per-file loop has appended to the writer and counted. -/
def streamPages : PageStream → List Nat
  | PageStream.ok pages => pages
  | PageStream.readErrorAfter pre _ => pre
  | PageStream.errorAfter pre _ => pre

/-- Behaviour of `PdfReader(path)` for one path. -/
inductive OpenResult
  | ok (encrypted : Bool) (decryptResult : String → DecryptOutcome) (pages : PageStream)
  | readError (msg : String)
  | otherError (msg : String)

/-- Pages a reader hands to the writer; `[]` when opening fails. -/
def pagesOfOpen : OpenResult → List Nat
  | OpenResult.ok _ _ pages => streamPages pages
  | OpenResult.readError _ => []
  | OpenResult.otherError _ => []

/-- Whether this file's page enumeration, if begun, runs to completion
(true as well when the open itself fails and no enumeration ever starts). -/
def pagesComplete : OpenResult → Bool
  | OpenResult.ok _ _ (PageStream.ok _) => true
  | OpenResult.ok _ _ (PageStream.readErrorAfter _ _) => false
  | OpenResult.ok _ _ (PageStream.errorAfter _ _) => false
  | OpenResult.readError _ => true
  | OpenResult.otherError _ => true

/-- Outcome of the write phase (merge_service.py lines 308-344):
`mkdirFail` = `output_path.parent.mkdir` raises, `mkstempFail` =
`tempfile.mkstemp` raises, `stageFail` = `writer.write` raises after the temp
file exists, `moveFail` = `shutil.move` raises with the temp file staged.
The temp file comes from `tempfile.mkstemp` with no `dir` argument (line
323), i.e. the system temp directory, while the destination is caller-chosen,
so `shutil.move` (line 331) may cross filesystems: `os.rename` then fails and
`shutil.move` falls back to `copy2` + `unlink`.  `moveFail`'s `copied` field
records what that failed move left at the destination: `none` = the rename
path failed with the destination untouched; `some n` = the fallback copy
failed (or its source unlink failed) after `n` pages' worth of the staged
document had been copied to the destination. -/
inductive WriteOutcome
  | ok
  | mkdirFail (msg : String)
  | mkstempFail (msg : String)
  | stageFail (msg : String)
  | moveFail (msg : String) (copied : Option Nat)
  deriving DecidableEq, Repr

/-- Response of the password request callback:
`(password, use_for_all, cancelled)`. -/
structure PromptResponse where
  password : String
  useForAll : Bool
  cancelled : Bool
  deriving DecidableEq, Repr

/-- Environment of one `MergeService.merge` run: per-path codec behaviour,
per-path hash outcome (`none` models `compute_sha256` raising), the loop
iteration index at which a concurrent `cancel()` call becomes visible to the
per-file cancellation check (`none` = never), the write phase's outcome, and
the destination path's pre-run content. -/
structure MergeEnv where
  openFile : String → OpenResult
  hashResult : String → Option String
  cancelFrom : Option Nat
  writePhase : WriteOutcome
  destBefore : Option (List Nat)

/-- Mutable service fields `_cancelled` and `_shared_password`
(merge_service.py lines 64-65). -/
structure ServiceState where
  cancelled : Bool := false
  sharedPassword : Option String := none
  deriving DecidableEq, Repr

/-- Constructor arguments of `MergeService.__init__`. -/
structure MergeConfig where
  normalizeMetadata : Bool := true
  encryptionMode : EncryptionHandlingMode := EncryptionHandlingMode.skip
  generateReport : Bool := true
  computeHashes : Bool := false
  deriving DecidableEq, Repr

/-- `MergeService.cancel` (line 67-69). -/
def MergeService.cancel (s : ServiceState) : ServiceState :=
  { s with cancelled := true }

/-- `MergeService.reset` (line 71-74). -/
def MergeService.reset (_s : ServiceState) : ServiceState :=
  { cancelled := false, sharedPassword := none }

/-- `MergeService.set_shared_password` (line 76-78). -/
def MergeService.set_shared_password (s : ServiceState) (password : String) :
    ServiceState :=
  { s with sharedPassword := some password }

/-- In-run password state: the `_shared_password` field plus a count of how
often the password request callback has been invoked so far (the callback is
modelled as a function of its invocation index and the file name it is shown). -/
structure PwAcc where
  shared : Option String
  promptCount : Nat
  deriving DecidableEq, Repr

/-- Password request callback behaviour: `none` when the caller passed no
callback; otherwise the response returned by the n-th invocation on a given
file name. -/
def PromptCallback : Type := Option (Nat → String → PromptResponse)

/-- `MergeService._get_password_for_file` (lines 387-435).  Returns the
password (or `none` = skip the file) plus the updated password state. -/
def MergeService.get_password_for_file (cfg : MergeConfig) (p : QueuedPDF)
    (passwords : String → Option String) (cb : PromptCallback)
    (acc : PwAcc) : Option String × PwAcc :=
  match passwords p.filePath with
  | some pw => (some pw, acc)
  | none =>
    match cfg.encryptionMode with
    | EncryptionHandlingMode.skip => (none, acc)
    | EncryptionHandlingMode.singlePassword =>
      match acc.shared with
      | some sp => (some sp, acc)
      | none =>
        match cb with
        | some f =>
          let r := f acc.promptCount p.fileName
          let acc1 : PwAcc := { acc with promptCount := acc.promptCount + 1 }
          if r.cancelled then (none, acc1)
          else if r.useForAll then
            (some r.password, { acc1 with shared := some r.password })
          else (some r.password, acc1)
        | none => (none, acc)
    | EncryptionHandlingMode.promptEach =>
      match cb with
      | some f =>
        let r := f acc.promptCount p.fileName
        let acc1 : PwAcc := { acc with promptCount := acc.promptCount + 1 }
        if r.cancelled then (none, acc1) else (some r.password, acc1)
      | none => (none, acc)

/-- Which counter the per-file branch bumps (merge_service.py lines 192-289):
`invalid` = the not-valid-for-merge skip branch, `skipEnc` = one of the three
encrypted skip branches, `mergedFile` = the success branch, `corrupt` = the
`PdfReadError` handler, `err` = the generic exception handler. -/
inductive StepKind
  | invalid
  | skipEnc
  | mergedFile
  | corrupt
  | err
  deriving DecidableEq, Repr

/-- The hash step (lines 186-190): on success store the digest, on failure
leave the entity unchanged (logged, non-fatal). -/
def hashStep (cfg : MergeConfig) (env : MergeEnv) (p : QueuedPDF) : QueuedPDF :=
  if cfg.computeHashes then
    match env.hashResult p.filePath with
    | some h => { p with sha256Hash := some h }
    | none => p
  else p

/-- The page-accumulation block (lines 253-269) together with the outer
handlers (lines 271-289) as they apply to the page loop: on a complete
enumeration the entity ends `Merged` with its page count recorded; a
`PdfReadError` mid-iteration lands in the `Corrupt` handler and any other
exception in the `Error` handler, in both cases with the already-yielded
page prefix left in the writer and counted in `total_pages` (the handlers do
not touch `page_count`).  Returns the entity's final state, the branch taken,
and the pages appended to the writer. -/
def addPagesStep (base : QueuedPDF) : PageStream → QueuedPDF × StepKind × List Nat
  | PageStream.ok pgs =>
      ({ base with status := FileStatus.merged,
                   pageCount := some pgs.length,
                   statusMessage := "",
                   skipReason := "" },
       StepKind.mergedFile, pgs)
  | PageStream.readErrorAfter pre _ =>
      ({ base with status := FileStatus.corrupt,
                   statusMessage := "Corrupt or unreadable",
                   skipReason := "corrupt" },
       StepKind.corrupt, pre)
  | PageStream.errorAfter pre msg =>
      ({ base with status := FileStatus.error,
                   statusMessage := msg.take 50,
                   skipReason := "error" },
       StepKind.err, pre)

/-- One entity's pass through the branch structure of the per-file loop body
(lines 192-289), after the hash step: returns the entity's final state, the
updated password state, the branch taken, and the pages appended to the
writer (empty except in the success branch and the mid-iteration failure
branches of `addPagesStep`). -/
def stepEntity (cfg : MergeConfig) (env : MergeEnv)
    (passwords : String → Option String) (cb : PromptCallback)
    (p : QueuedPDF) (pw : PwAcc) :
    QueuedPDF × PwAcc × StepKind × List Nat :=
  if p.is_valid_for_merge = false then
    (p, pw, StepKind.invalid, [])
  else
    let p2 := { p with status := FileStatus.processing }
    match env.openFile p2.filePath with
    | OpenResult.readError _ =>
        ({ p2 with status := FileStatus.corrupt,
                   statusMessage := "Corrupt or unreadable",
                   skipReason := "corrupt" },
         pw, StepKind.corrupt, [])
    | OpenResult.otherError msg =>
        ({ p2 with status := FileStatus.error,
                   statusMessage := msg.take 50,
                   skipReason := "error" },
         pw, StepKind.err, [])
    | OpenResult.ok encrypted decryptResult pages =>
      if encrypted then
        let p3 := { p2 with isEncrypted := true }
        let gp := MergeService.get_password_for_file cfg p3 passwords cb pw
        let pw1 := gp.2
        match gp.1 with
        | none =>
            ({ p3 with status := FileStatus.encrypted,
                       skipReason := "skipped",
                       statusMessage := "Skipped" },
             pw1, StepKind.skipEnc, [])
        | some password =>
          match decryptResult password with
          | DecryptOutcome.failed =>
              ({ p3 with status := FileStatus.encrypted,
                         skipReason := "password failed",
                         statusMessage := "Wrong password" },
               pw1, StepKind.skipEnc, [])
          | DecryptOutcome.raised _ =>
              ({ p3 with status := FileStatus.encrypted,
                         skipReason := "decrypt error",
                         statusMessage := "Decrypt failed" },
               pw1, StepKind.skipEnc, [])
          | DecryptOutcome.ok =>
              let r := addPagesStep { p3 with passwordProvided := true } pages
              (r.1, pw1, r.2.1, r.2.2)
      else
        let r := addPagesStep p2 pages
        (r.1, pw, r.2.1, r.2.2)

/-- `MergeService._create_manifest_entry` (lines 437-451). -/
def createManifestEntry (index : Nat) (p : QueuedPDF) : MergeManifestEntry :=
  { index := index
    fileName := p.fileName
    fullPath := p.filePath
    sizeBytes := p.sizeBytes
    pageCount := p.pageCount
    status := p.manifest_status
    sha256Hash := p.sha256Hash }

/-- Accumulated loop state of `MergeService.merge`: the writer's page list,
the four counters, the manifest entry list, the password state, and the final
states of the entities processed so far (in queue order). -/
structure LoopAcc where
  writerPages : List Nat := []
  totalPages : Nat := 0
  mergedCount : Nat := 0
  skippedCount : Nat := 0
  errorCount : Nat := 0
  manifest : List MergeManifestEntry := []
  pw : PwAcc
  processed : List QueuedPDF := []

/-- One iteration of the per-file loop for the entity at 0-based queue
position `i` (lines 185-289): hash step, then the branch structure, then the
uniform accumulator updates each branch performs (one manifest entry, one
processed entity, branch-dependent counter bumps).  The skipped-counter guard
reproduces the source's `if queued_pdf.status not in (PENDING, READY)` test
verbatim. -/
def processFile (cfg : MergeConfig) (env : MergeEnv)
    (passwords : String → Option String) (cb : PromptCallback)
    (i : Nat) (p : QueuedPDF) (acc : LoopAcc) : LoopAcc :=
  let p1 := hashStep cfg env p
  let r := stepEntity cfg env passwords cb p1 acc.pw
  let q := r.1
  let pw1 := r.2.1
  let kind := r.2.2.1
  let pages := r.2.2.2
  { writerPages := acc.writerPages ++ pages
    totalPages := acc.totalPages + pages.length
    mergedCount := acc.mergedCount + (if kind = StepKind.mergedFile then 1 else 0)
    skippedCount := acc.skippedCount +
      (match kind with
       | StepKind.invalid =>
           if q.status = FileStatus.pending ∨ q.status = FileStatus.ready then 0 else 1
       | StepKind.skipEnc => 1
       | _ => 0)
    errorCount := acc.errorCount +
      (match kind with
       | StepKind.corrupt => 1
       | StepKind.err => 1
       | _ => 0)
    manifest := acc.manifest ++ [createManifestEntry (i + 1) q]
    pw := pw1
    processed := acc.processed ++ [q] }

/-- Value of `self._cancelled` observed by the cancellation check at loop
index `i`: `merge` cleared the flag at entry, so the flag is set exactly when
a concurrent `cancel()` has become visible by index `i`. -/
def cancelledAt (env : MergeEnv) (i : Nat) : Bool :=
  match env.cancelFrom with
  | some k => decide (k ≤ i)
  | none => false

/-- The per-file loop (lines 168-289).  Returns the final accumulator and
`some rest` when the run was cancelled with `rest` the untouched suffix of the
queue, `none` when the loop processed every entity. -/
def runLoop (cfg : MergeConfig) (env : MergeEnv)
    (passwords : String → Option String) (cb : PromptCallback) :
    List QueuedPDF → Nat → LoopAcc → LoopAcc × Option (List QueuedPDF)
  | [], _, acc => (acc, none)
  | p :: rest, i, acc =>
    if cancelledAt env i then (acc, some (p :: rest))
    else runLoop cfg env passwords cb rest (i + 1)
           (processFile cfg env passwords cb i p acc)

/-- Loop accumulator at loop entry: empty writer, zero counters, the
service's cached shared password, no callback invocations yet. -/
def initAcc (st : ServiceState) : LoopAcc :=
  { pw := { shared := st.sharedPassword, promptCount := 0 } }

/-- The `error_message` the outer write handler (lines 340-344) stores for
each write failure: `f"Failed to write output: {e}"`, where for staging/move
failures `e` is the `OutputWriteError` raised at line 338 (whose string form
is `[CODE] message (file: path)`, see `errors.py`), and for mkdir/mkstemp
failures `e` is the raw exception. -/
def writeFailMessage (outputPath : String) : WriteOutcome → String
  | WriteOutcome.ok => ""
  | WriteOutcome.mkdirFail m => "Failed to write output: " ++ m
  | WriteOutcome.mkstempFail m => "Failed to write output: " ++ m
  | WriteOutcome.stageFail m =>
      "Failed to write output: [OUTPUT_WRITE_FAILED] Failed to write output: "
        ++ m ++ " (file: " ++ outputPath ++ ")"
  | WriteOutcome.moveFail m _ =>
      "Failed to write output: [OUTPUT_WRITE_FAILED] Failed to write output: "
        ++ m ++ " (file: " ++ outputPath ++ ")"

/-- What a failed write phase leaves at the destination path.  Failures at or
before staging never touch the destination (`writer.write` goes to the temp
file only).  A failed move leaves the destination untouched when the rename
path failed, but when the cross-filesystem `copy2` fallback was taken, the
destination holds the prefix of the staged document that had been copied when
the move raised — a truncated document, or the complete document when the
copy finished and only the source unlink failed. -/
def destAfterFailedWrite (w : WriteOutcome) (destBefore : Option (List Nat))
    (staged : List Nat) : Option (List Nat) :=
  match w with
  | WriteOutcome.moveFail _ (some n) => some (staged.take n)
  | _ => destBefore

/-- Observable outcome of one `MergeService.merge` run: the returned
`MergeResult` plus the run's other observables — final entity states (queue
order), the writer's accumulated page list, the internally accumulated
manifest, the loop counters, how often the password callback was invoked, the
final shared password, whether the run ended through the cancellation check,
the destination path's content after the run, whether the staging temp file
was left behind, and whether an output document was made visible. -/
structure RunOutput where
  result : MergeResult
  finalFiles : List QueuedPDF
  writerPages : List Nat
  internalManifest : List MergeManifestEntry
  loopMerged : Nat
  loopSkipped : Nat
  loopErrors : Nat
  loopPages : Nat
  promptCount : Nat
  sharedPasswordAfter : Option String
  cancelledRun : Bool
  destAfter : Option (List Nat)
  tempLeft : Bool
  outputWritten : Bool
  deriving DecidableEq, Repr

/-- `MergeService.merge` (lines 115-385).  Line 136 sets `self._cancelled =
False`, so the initial `st.cancelled` value is discarded and in-run
cancellation is driven solely by `env.cancelFrom`.  The inner handler (lines
334-337) unlinks the temp file in every staging/move failure — that unlink is
modelled as succeeding — and no temp file exists in the mkdir/mkstemp failure
cases, so `tempLeft` is `false` on every path; what a failed move leaves at
the destination is modelled by `destAfterFailedWrite`.  Report generation
(non-fatal, log-only on failure) and progress callbacks (write-only
observables) are not modelled. -/
def MergeService.merge (cfg : MergeConfig) (st : ServiceState) (env : MergeEnv)
    (files : List QueuedPDF) (outputPath : String)
    (passwords : String → Option String) (cb : PromptCallback) : RunOutput :=
  let validFiles := files.filter (fun f => f.is_valid_for_merge)
  if validFiles.isEmpty then
    -- lines 147-152: early return, no manifest entries, no output attempt
    { result := { success := false
                  errorMessage := "No valid PDF files to merge"
                  skippedCount := files.length }
      finalFiles := files
      writerPages := []
      internalManifest := []
      loopMerged := 0, loopSkipped := 0, loopErrors := 0, loopPages := 0
      promptCount := 0
      sharedPasswordAfter := st.sharedPassword
      cancelledRun := false
      destAfter := env.destBefore
      tempLeft := false
      outputWritten := false }
  else
    let lr := runLoop cfg env passwords cb files 0 (initAcc st)
    let acc := lr.1
    match lr.2 with
    | some rest =>
      -- lines 169-172: cancelled; `result` still holds its creation-time
      -- fields (success=False, output_path) plus the message; the
      -- accumulated manifest entries are NOT attached to it
      { result := { success := false
                    outputPath := some outputPath
                    errorMessage := "Merge cancelled" }
        finalFiles := acc.processed ++ rest
        writerPages := acc.writerPages
        internalManifest := acc.manifest
        loopMerged := acc.mergedCount, loopSkipped := acc.skippedCount
        loopErrors := acc.errorCount, loopPages := acc.totalPages
        promptCount := acc.pw.promptCount
        sharedPasswordAfter := acc.pw.shared
        cancelledRun := true
        destAfter := env.destBefore
        tempLeft := false
        outputWritten := false }
    | none =>
      if acc.mergedCount = 0 then
        -- lines 292-297
        { result := { success := false
                      outputPath := some outputPath
                      errorMessage := "No files could be merged"
                      skippedCount := acc.skippedCount
                      errorCount := acc.errorCount
                      manifestEntries := acc.manifest }
          finalFiles := acc.processed
          writerPages := acc.writerPages
          internalManifest := acc.manifest
          loopMerged := acc.mergedCount, loopSkipped := acc.skippedCount
          loopErrors := acc.errorCount, loopPages := acc.totalPages
          promptCount := acc.pw.promptCount
          sharedPasswordAfter := acc.pw.shared
          cancelledRun := false
          destAfter := env.destBefore
          tempLeft := false
          outputWritten := false }
      else if env.writePhase = WriteOutcome.ok then
        -- lines 299-385: metadata normalization only touches document
        -- metadata (not pages); output size is measured post-write and
        -- abstracted here as the written document's page count
        { result := { success := true
                      outputPath := some outputPath
                      mergedCount := acc.mergedCount
                      skippedCount := acc.skippedCount
                      errorCount := acc.errorCount
                      totalPages := acc.totalPages
                      totalSizeBytes := acc.writerPages.length
                      manifestEntries := acc.manifest }
          finalFiles := acc.processed
          writerPages := acc.writerPages
          internalManifest := acc.manifest
          loopMerged := acc.mergedCount, loopSkipped := acc.skippedCount
          loopErrors := acc.errorCount, loopPages := acc.totalPages
          promptCount := acc.pw.promptCount
          sharedPasswordAfter := acc.pw.shared
          cancelledRun := false
          destAfter := some acc.writerPages
          tempLeft := false
          outputWritten := true }
      else
        -- lines 340-344: failed write; counts stay at their creation-time
        -- zeros, only the message and the manifest entries are attached.
        -- The destination keeps what the failed move left there (see
        -- destAfterFailedWrite); the handler's temp-file unlink (lines
        -- 336-337) is modelled as succeeding
        { result := { success := false
                      outputPath := some outputPath
                      errorMessage := writeFailMessage outputPath env.writePhase
                      manifestEntries := acc.manifest }
          finalFiles := acc.processed
          writerPages := acc.writerPages
          internalManifest := acc.manifest
          loopMerged := acc.mergedCount, loopSkipped := acc.skippedCount
          loopErrors := acc.errorCount, loopPages := acc.totalPages
          promptCount := acc.pw.promptCount
          sharedPasswordAfter := acc.pw.shared
          cancelledRun := false
          destAfter := destAfterFailedWrite env.writePhase env.destBefore
              acc.writerPages
          tempLeft := false
          outputWritten := false }

/-!
### Validator (`src/core/pdf_probe.py`)

`validate_and_update_queued_pdf` consults the filesystem (existence, magic
bytes) and `probe_pdf`.  For a file whose contents and probe outcome are
unchanged between calls, those observations are fixed and modelled by
`ProbeEnv`.
-/

/-- `list.isPrefixOf`-style Boolean check on character lists. -/
def isPrefixB : List Char → List Char → Bool
  | [], _ => true
  | _ :: _, [] => false
  | a :: as, b :: bs => a == b && isPrefixB as bs

/-- Whether the first character list occurs contiguously in the second. -/
def containsSeq : List Char → List Char → Bool
  | pat, [] => pat == []
  | pat, c :: rest => isPrefixB pat (c :: rest) || containsSeq pat rest

/-- Python's `pat in msg.lower()` for a lowercase literal `pat`. -/
def containsLower (msg pat : String) : Bool :=
  containsSeq pat.data (msg.data.map Char.toLower)

/-- Observations `validate_and_update_queued_pdf` makes about one unchanged
file: `file_path.exists()`, the `is_pdf_file` magic-byte check, and the
`(is_valid, page_count, error_message)` triple returned by `probe_pdf`. -/
structure ProbeEnv where
  fileExists : Bool
  isPdfMagic : Bool
  probeValid : Bool
  probePages : Option Nat
  probeMsg : String
  deriving DecidableEq, Repr

/-- `validate_and_update_queued_pdf` (pdf_probe.py lines 116-173).  The
`skip_encrypted` argument only selects a log message in the source and is
kept for signature fidelity. -/
def validate_and_update_queued_pdf (env : ProbeEnv) (p : QueuedPDF)
    (_skipEncrypted : Bool) : QueuedPDF :=
  if env.fileExists = false then
    { p with status := FileStatus.error, statusMessage := "File not found" }
  else if env.isPdfMagic = false then
    { p with status := FileStatus.notPdf, statusMessage := "Not a valid PDF" }
  else if env.probeValid then
    { p with status := FileStatus.ready,
             pageCount := env.probePages,
             statusMessage := "" }
  else if containsLower env.probeMsg "encrypted" then
    { p with status := FileStatus.encrypted,
             statusMessage := "Password protected" }
  else if containsLower env.probeMsg "corrupt" || containsLower env.probeMsg "unreadable" then
    { p with status := FileStatus.corrupt, statusMessage := env.probeMsg }
  else
    { p with status := FileStatus.error, statusMessage := env.probeMsg }

/-!
### Derived notions used in theorem statements
-/

/-- The cancellation-free per-file loop: what `runLoop` computes on a stretch
of the queue during which no cancellation check fires. -/
def loopFold (cfg : MergeConfig) (env : MergeEnv)
    (passwords : String → Option String) (cb : PromptCallback) :
    List QueuedPDF → Nat → LoopAcc → LoopAcc
  | [], _, acc => acc
  | p :: rest, i, acc =>
      loopFold cfg env passwords cb rest (i + 1)
        (processFile cfg env passwords cb i p acc)

/-- Whether opening this path yields an encrypted reader. -/
def encOpen : OpenResult → Bool
  | OpenResult.ok true _ _ => true
  | _ => false

/-- Whether the per-file step on `p` reaches the password resolver with no
per-file supplied password: `p` is valid for merge, opens as an encrypted
reader, and the supplied-password map has no entry for its path. -/
def needsPrompt (env : MergeEnv) (passwords : String → Option String)
    (p : QueuedPDF) : Bool :=
  p.is_valid_for_merge && encOpen (env.openFile p.filePath)
    && (passwords p.filePath).isNone

/-- This entity's contribution to the total page count if it ended `Merged`. -/
def mergedContribution (f : QueuedPDF) : Nat :=
  if f.status = FileStatus.merged then f.pageCount.getD 0 else 0

/-- Sum of recorded page counts over the entities that ended `Merged`. -/
def sumMergedPages (l : List QueuedPDF) : Nat :=
  (l.map mergedContribution).sum

/-- The pages this entity contributed to the output if it ended `Merged`. -/
def mergedPages (env : MergeEnv) (f : QueuedPDF) : List Nat :=
  if f.status = FileStatus.merged then pagesOfOpen (env.openFile f.filePath)
  else []

/-- Concatenation, in queue order, of each `Merged` entity's page list (each
file's internal page order preserved). -/
def joinMergedPages (env : MergeEnv) (l : List QueuedPDF) : List Nat :=
  (l.map (mergedPages env)).flatten

/-- Number of entities in the list whose status is `Merged`. -/
def countMerged (l : List QueuedPDF) : Nat :=
  l.countP (fun f => f.status = FileStatus.merged)

/-!
### Basic lemmas about the loop pieces
-/

theorem cancelledAt_none (env : MergeEnv) (h : env.cancelFrom = none) (i : Nat) :
    cancelledAt env i = false := by
  simp [cancelledAt, h]

theorem hashStep_status (cfg : MergeConfig) (env : MergeEnv) (p : QueuedPDF) :
    (hashStep cfg env p).status = p.status := by
  unfold hashStep
  split
  · split <;> rfl
  · rfl

theorem hashStep_filePath (cfg : MergeConfig) (env : MergeEnv) (p : QueuedPDF) :
    (hashStep cfg env p).filePath = p.filePath := by
  unfold hashStep
  split
  · split <;> rfl
  · rfl

theorem hashStep_valid (cfg : MergeConfig) (env : MergeEnv) (p : QueuedPDF) :
    (hashStep cfg env p).is_valid_for_merge = p.is_valid_for_merge := by
  simp [QueuedPDF.is_valid_for_merge, hashStep_status]

theorem stepEntity_filePath (cfg : MergeConfig) (env : MergeEnv)
    (pwds : String → Option String) (cb : PromptCallback)
    (p : QueuedPDF) (pw : PwAcc) :
    (stepEntity cfg env pwds cb p pw).1.filePath = p.filePath := by
  unfold stepEntity addPagesStep
  dsimp only
  repeat' split <;> try rfl

/-- Branch characterization of the per-file step: either the success branch
completed (entity ends `Merged`, the appended pages are the reader's full
page list, the recorded page count is their number), or it did not (the
status is either untouched, in the not-valid-for-merge branch, or set to a
non-`Merged` terminal status; and no pages were appended â provided the
file's page enumeration, once begun, completes: a mid-iteration failure
leaves its yielded prefix appended). -/
theorem stepEntity_cases (cfg : MergeConfig) (env : MergeEnv)
    (pwds : String → Option String) (cb : PromptCallback)
    (p : QueuedPDF) (pw : PwAcc) :
    ((stepEntity cfg env pwds cb p pw).2.2.1 = StepKind.mergedFile
      ∧ (stepEntity cfg env pwds cb p pw).1.status = FileStatus.merged
      ∧ (stepEntity cfg env pwds cb p pw).2.2.2
          = pagesOfOpen (env.openFile p.filePath)
      ∧ (stepEntity cfg env pwds cb p pw).1.pageCount
          = some (pagesOfOpen (env.openFile p.filePath)).length)
    ∨ ((stepEntity cfg env pwds cb p pw).2.2.1 ≠ StepKind.mergedFile
      ∧ (pagesComplete (env.openFile p.filePath) = true →
          (stepEntity cfg env pwds cb p pw).2.2.2 = [])
      ∧ ((stepEntity cfg env pwds cb p pw).1.status = p.status
          ∨ (stepEntity cfg env pwds cb p pw).1.status ≠ FileStatus.merged)) := by
  unfold stepEntity addPagesStep
  dsimp only
  repeat' split <;> try simp_all [pagesOfOpen, streamPages, pagesComplete]

/-- With no cancellation in sight, the loop runs to completion and computes
the cancellation-free fold. -/
theorem runLoop_eq_loopFold (cfg : MergeConfig) (env : MergeEnv)
    (pwds : String → Option String) (cb : PromptCallback)
    (h : env.cancelFrom = none) :
    ∀ (files : List QueuedPDF) (i : Nat) (acc : LoopAcc),
      runLoop cfg env pwds cb files i acc
        = (loopFold cfg env pwds cb files i acc, none)
  | [], _, _ => rfl
  | p :: rest, i, acc => by
      rw [runLoop, loopFold, cancelledAt_none env h i, if_neg]
      · exact runLoop_eq_loopFold cfg env pwds cb h rest (i + 1) _
      · simp

theorem processFile_processed (cfg : MergeConfig) (env : MergeEnv)
    (pwds : String → Option String) (cb : PromptCallback)
    (i : Nat) (p : QueuedPDF) (acc : LoopAcc) :
    (processFile cfg env pwds cb i p acc).processed
      = acc.processed ++ [(stepEntity cfg env pwds cb (hashStep cfg env p) acc.pw).1] := rfl

theorem processFile_manifest (cfg : MergeConfig) (env : MergeEnv)
    (pwds : String → Option String) (cb : PromptCallback)
    (i : Nat) (p : QueuedPDF) (acc : LoopAcc) :
    (processFile cfg env pwds cb i p acc).manifest
      = acc.manifest
        ++ [createManifestEntry (i + 1)
              (stepEntity cfg env pwds cb (hashStep cfg env p) acc.pw).1] := rfl

theorem processFile_writerPages (cfg : MergeConfig) (env : MergeEnv)
    (pwds : String → Option String) (cb : PromptCallback)
    (i : Nat) (p : QueuedPDF) (acc : LoopAcc) :
    (processFile cfg env pwds cb i p acc).writerPages
      = acc.writerPages
        ++ (stepEntity cfg env pwds cb (hashStep cfg env p) acc.pw).2.2.2 := rfl

theorem processFile_totalPages (cfg : MergeConfig) (env : MergeEnv)
    (pwds : String → Option String) (cb : PromptCallback)
    (i : Nat) (p : QueuedPDF) (acc : LoopAcc) :
    (processFile cfg env pwds cb i p acc).totalPages
      = acc.totalPages
        + (stepEntity cfg env pwds cb (hashStep cfg env p) acc.pw).2.2.2.length := rfl

theorem processFile_mergedCount (cfg : MergeConfig) (env : MergeEnv)
    (pwds : String → Option String) (cb : PromptCallback)
    (i : Nat) (p : QueuedPDF) (acc : LoopAcc) :
    (processFile cfg env pwds cb i p acc).mergedCount
      = acc.mergedCount
        + (if (stepEntity cfg env pwds cb (hashStep cfg env p) acc.pw).2.2.1
              = StepKind.mergedFile
           then 1 else 0) := rfl

theorem sumMergedPages_append (l : List QueuedPDF) (q : QueuedPDF) :
    sumMergedPages (l ++ [q]) = sumMergedPages l + mergedContribution q := by
  simp [sumMergedPages]

theorem joinMergedPages_append (env : MergeEnv) (l : List QueuedPDF) (q : QueuedPDF) :
    joinMergedPages env (l ++ [q]) = joinMergedPages env l ++ mergedPages env q := by
  simp [joinMergedPages]

theorem countMerged_append (l : List QueuedPDF) (q : QueuedPDF) :
    countMerged (l ++ [q])
      = countMerged l + (if q.status = FileStatus.merged then 1 else 0) := by
  simp [countMerged, List.countP_append, List.countP_cons]

/-- One loop iteration preserves the page-accounting invariant relating the
accumulator to the processed entities' final states, provided the entity was
not already `Merged` at entry. -/
theorem processFile_pagesInv (cfg : MergeConfig) (env : MergeEnv)
    (pwds : String → Option String) (cb : PromptCallback)
    (i : Nat) (p : QueuedPDF) (acc : LoopAcc)
    (hp : p.status ≠ FileStatus.merged)
    (hc : pagesComplete (env.openFile p.filePath) = true)
    (h1 : acc.totalPages = sumMergedPages acc.processed)
    (h2 : acc.writerPages = joinMergedPages env acc.processed)
    (h3 : acc.mergedCount = countMerged acc.processed) :
    (processFile cfg env pwds cb i p acc).totalPages
        = sumMergedPages (processFile cfg env pwds cb i p acc).processed
    ∧ (processFile cfg env pwds cb i p acc).writerPages
        = joinMergedPages env (processFile cfg env pwds cb i p acc).processed
    ∧ (processFile cfg env pwds cb i p acc).mergedCount
        = countMerged (processFile cfg env pwds cb i p acc).processed := by
  have hq := stepEntity_cases cfg env pwds cb (hashStep cfg env p) acc.pw
  have hfp : (stepEntity cfg env pwds cb (hashStep cfg env p) acc.pw).1.filePath
      = p.filePath := by
    rw [stepEntity_filePath, hashStep_filePath]
  have hch : pagesComplete (env.openFile (hashStep cfg env p).filePath) = true := by
    rw [hashStep_filePath]
    exact hc
  rw [processFile_processed, processFile_writerPages, processFile_totalPages,
      processFile_mergedCount, sumMergedPages_append, joinMergedPages_append,
      countMerged_append, h1, h2, h3]
  rcases hq with ⟨hk, hst, hpg, hpc⟩ | ⟨hk, hpg, hst⟩
  · rw [hashStep_filePath cfg env p] at hpg hpc
    refine ⟨?_, ?_, ?_⟩
    · rw [mergedContribution, if_pos hst, hpc, hpg, Option.getD_some]
    · rw [mergedPages, if_pos hst, hfp, hpg]
    · rw [if_pos hk, if_pos hst]
  · have hnm : (stepEntity cfg env pwds cb (hashStep cfg env p) acc.pw).1.status
        ≠ FileStatus.merged := by
      rcases hst with hst | hst
      · rw [hst, hashStep_status]; exact hp
      · exact hst
    refine ⟨?_, ?_, ?_⟩
    · rw [mergedContribution, if_neg hnm, hpg hch]; simp
    · rw [mergedPages, if_neg hnm, hpg hch]
    · rw [if_neg hk, if_neg hnm]

/-- The cancellation-free loop preserves the page-accounting invariant. -/
theorem loopFold_pagesInv (cfg : MergeConfig) (env : MergeEnv)
    (pwds : String → Option String) (cb : PromptCallback) :
    ∀ (files : List QueuedPDF) (i : Nat) (acc : LoopAcc),
      (∀ f ∈ files, f.status ≠ FileStatus.merged) →
      (∀ f ∈ files, pagesComplete (env.openFile f.filePath) = true) →
      acc.totalPages = sumMergedPages acc.processed →
      acc.writerPages = joinMergedPages env acc.processed →
      acc.mergedCount = countMerged acc.processed →
      (loopFold cfg env pwds cb files i acc).totalPages
          = sumMergedPages (loopFold cfg env pwds cb files i acc).processed
      ∧ (loopFold cfg env pwds cb files i acc).writerPages
          = joinMergedPages env (loopFold cfg env pwds cb files i acc).processed
      ∧ (loopFold cfg env pwds cb files i acc).mergedCount
          = countMerged (loopFold cfg env pwds cb files i acc).processed
  | [], _, acc, _, _, h1, h2, h3 => ⟨h1, h2, h3⟩
  | p :: rest, i, acc, hall, hcomp, h1, h2, h3 => by
      rw [loopFold]
      have hp : p.status ≠ FileStatus.merged := hall p (List.mem_cons_self p rest)
      have hc : pagesComplete (env.openFile p.filePath) = true :=
        hcomp p (List.mem_cons_self p rest)
      have hstep := processFile_pagesInv cfg env pwds cb i p acc hp hc h1 h2 h3
      exact loopFold_pagesInv cfg env pwds cb rest (i + 1) _
        (fun f hf => hall f (List.mem_cons_of_mem p hf))
        (fun f hf => hcomp f (List.mem_cons_of_mem p hf))
        hstep.1 hstep.2.1 hstep.2.2

/-- The cancellation-free loop appends one processed entity per input file. -/
theorem loopFold_processed_len (cfg : MergeConfig) (env : MergeEnv)
    (pwds : String → Option String) (cb : PromptCallback) :
    ∀ (files : List QueuedPDF) (i : Nat) (acc : LoopAcc),
      (loopFold cfg env pwds cb files i acc).processed.length
        = acc.processed.length + files.length
  | [], _, _ => rfl
  | p :: rest, i, acc => by
      rw [loopFold, loopFold_processed_len cfg env pwds cb rest (i + 1) _,
          processFile_processed]
      simp
      omega

/-- The cancellation-free loop appends one manifest entry per input file. -/
theorem loopFold_manifest_len (cfg : MergeConfig) (env : MergeEnv)
    (pwds : String → Option String) (cb : PromptCallback) :
    ∀ (files : List QueuedPDF) (i : Nat) (acc : LoopAcc),
      (loopFold cfg env pwds cb files i acc).manifest.length
        = acc.manifest.length + files.length
  | [], _, _ => rfl
  | p :: rest, i, acc => by
      rw [loopFold, loopFold_manifest_len cfg env pwds cb rest (i + 1) _,
          processFile_manifest]
      simp
      omega

/-- Manifest entry indices of the cancellation-free loop: consecutive 1-based
queue positions. -/
theorem loopFold_manifest_index (cfg : MergeConfig) (env : MergeEnv)
    (pwds : String → Option String) (cb : PromptCallback) :
    ∀ (files : List QueuedPDF) (i : Nat) (acc : LoopAcc),
      (loopFold cfg env pwds cb files i acc).manifest.map (fun e => e.index)
        = acc.manifest.map (fun e => e.index) ++ List.range' (i + 1) files.length
  | [], _, _ => by simp [loopFold]
  | p :: rest, i, acc => by
      rw [loopFold, loopFold_manifest_index cfg env pwds cb rest (i + 1) _,
          processFile_manifest]
      simp [List.range'_succ, createManifestEntry]

/-- When a concurrent cancel becomes visible at index `k`, the loop processes
exactly the first `k - i` entities of the remaining queue and returns the
untouched suffix. -/
theorem runLoop_cancelled (cfg : MergeConfig) (env : MergeEnv)
    (pwds : String → Option String) (cb : PromptCallback)
    (k : Nat) (hk : env.cancelFrom = some k) :
    ∀ (files : List QueuedPDF) (i : Nat) (acc : LoopAcc),
      i ≤ k → k - i < files.length →
      runLoop cfg env pwds cb files i acc
        = (loopFold cfg env pwds cb (files.take (k - i)) i acc,
           some (files.drop (k - i)))
  | [], _, _, _, hlen => absurd hlen (by simp)
  | p :: rest, i, acc, hik, hlen => by
      by_cases hki : k ≤ i
      · have hii : k - i = 0 := by omega
        have hc : cancelledAt env i = true := by simp [cancelledAt, hk, hki]
        rw [hii, runLoop, hc]
        rfl
      · have hc : cancelledAt env i = false := by
          simp [cancelledAt, hk]
          omega
        have hlen1 : k - (i + 1) < rest.length := by
          simp only [List.length_cons] at hlen
          omega
        rw [runLoop, hc]
        simp only [Bool.false_eq_true, if_false]
        rw [runLoop_cancelled cfg env pwds cb k hk rest (i + 1)
              (processFile cfg env pwds cb i p acc) (by omega) hlen1]
        have hsub : k - i = (k - (i + 1)) + 1 := by omega
        rw [hsub, List.take_succ_cons, List.drop_succ_cons, loopFold]

/-!
### Password resolver lemmas
-/

/-- A supplied per-file password is returned as-is, with no state change, in
every mode. -/
theorem get_password_supplied (cfg : MergeConfig) (p : QueuedPDF)
    (pwds : String → Option String) (cb : PromptCallback) (a : PwAcc)
    (pw : String) (h : pwds p.filePath = some pw) :
    MergeService.get_password_for_file cfg p pwds cb a = (some pw, a) := by
  unfold MergeService.get_password_for_file
  rw [h]

/-- `SkipEncrypted` never touches the password state (in particular it never
invokes the prompt callback). -/
theorem get_password_skip (cfg : MergeConfig) (p : QueuedPDF)
    (pwds : String → Option String) (cb : PromptCallback) (a : PwAcc)
    (hm : cfg.encryptionMode = EncryptionHandlingMode.skip) :
    (MergeService.get_password_for_file cfg p pwds cb a).2 = a := by
  unfold MergeService.get_password_for_file
  cases h : pwds p.filePath <;> simp [h, hm]

/-- `PromptPerFile` with a callback present invokes it exactly once unless a
per-file password was supplied. -/
theorem get_password_promptEach_count (cfg : MergeConfig) (p : QueuedPDF)
    (pwds : String → Option String) (f : Nat → String → PromptResponse)
    (a : PwAcc)
    (hm : cfg.encryptionMode = EncryptionHandlingMode.promptEach) :
    (MergeService.get_password_for_file cfg p pwds (some f) a).2.promptCount
      = a.promptCount + (if (pwds p.filePath).isNone then 1 else 0) := by
  unfold MergeService.get_password_for_file
  cases h : pwds p.filePath
  · simp only [h, hm]
    split <;> simp
  · simp [h]

/-- `SharedPassword` preserves the at-most-one-prompt invariant when every
callback response is marked use-for-all and not cancelled: once a prompt has
happened the shared password is cached, and a cached password suppresses all
further prompts. -/
theorem get_password_single_inv (cfg : MergeConfig) (p : QueuedPDF)
    (pwds : String → Option String) (cb : PromptCallback) (a : PwAcc)
    (hm : cfg.encryptionMode = EncryptionHandlingMode.singlePassword)
    (hcb : ∀ g, cb = some g →
      ∀ n s, (g n s).useForAll = true ∧ (g n s).cancelled = false)
    (hJ1 : a.promptCount ≤ 1)
    (hJ2 : 1 ≤ a.promptCount → a.shared.isSome = true) :
    (MergeService.get_password_for_file cfg p pwds cb a).2.promptCount ≤ 1
    ∧ (1 ≤ (MergeService.get_password_for_file cfg p pwds cb a).2.promptCount →
        (MergeService.get_password_for_file cfg p pwds cb a).2.shared.isSome
          = true) := by
  unfold MergeService.get_password_for_file
  cases h : pwds p.filePath
  · simp only [h, hm]
    cases hsh : a.shared
    · cases hccb : cb with
      | none => exact ⟨hJ1, hJ2⟩
      | some g =>
        have hr := hcb g hccb a.promptCount p.fileName
        have ha0 : a.promptCount = 0 := by
          by_contra hne
          have h1 : 1 ≤ a.promptCount := by omega
          have := hJ2 h1
          rw [hsh] at this
          simp at this
        rw [ha0] at hr
        simp [hr.1, hr.2, ha0]
    · exact ⟨hJ1, hJ2⟩
  · simp only [h]
    exact ⟨hJ1, hJ2⟩

theorem processFile_pw (cfg : MergeConfig) (env : MergeEnv)
    (pwds : String → Option String) (cb : PromptCallback)
    (i : Nat) (p : QueuedPDF) (acc : LoopAcc) :
    (processFile cfg env pwds cb i p acc).pw
      = (stepEntity cfg env pwds cb (hashStep cfg env p) acc.pw).2.1 := rfl

/-- In `SkipEncrypted` mode the per-file step never changes the password
state. -/
theorem stepEntity_pw_skip (cfg : MergeConfig) (env : MergeEnv)
    (pwds : String → Option String) (cb : PromptCallback)
    (p : QueuedPDF) (pw : PwAcc)
    (hm : cfg.encryptionMode = EncryptionHandlingMode.skip) :
    (stepEntity cfg env pwds cb p pw).2.1 = pw := by
  unfold stepEntity
  dsimp only
  repeat' split <;> try rfl
  all_goals exact get_password_skip _ _ _ _ _ hm

theorem needsPrompt_hashStep (cfg : MergeConfig) (env : MergeEnv)
    (pwds : String → Option String) (p : QueuedPDF) :
    needsPrompt env pwds (hashStep cfg env p) = needsPrompt env pwds p := by
  simp [needsPrompt, hashStep_valid, hashStep_filePath]

/-- The per-file step either leaves the password state untouched (and the
entity did not reach the resolver without a supplied password), or hands it to
the resolver exactly once, called on the entity as marked `Processing` and
encrypted. -/
theorem stepEntity_pw_eq (cfg : MergeConfig) (env : MergeEnv)
    (pwds : String → Option String) (cb : PromptCallback)
    (p : QueuedPDF) (pw : PwAcc) :
    ((stepEntity cfg env pwds cb p pw).2.1 = pw
      ∧ needsPrompt env pwds p = false)
    ∨ ((stepEntity cfg env pwds cb p pw).2.1
        = (MergeService.get_password_for_file cfg
            { p with status := FileStatus.processing, isEncrypted := true }
            pwds cb pw).2
      ∧ needsPrompt env pwds p = (pwds p.filePath).isNone) := by
  unfold stepEntity
  dsimp only
  by_cases hv : p.is_valid_for_merge = false
  · rw [if_pos hv]
    exact Or.inl ⟨rfl, by simp [needsPrompt, hv]⟩
  · rw [if_neg hv]
    have hvt : p.is_valid_for_merge = true := by
      revert hv
      cases p.is_valid_for_merge <;> simp
    rcases ho : env.openFile p.filePath with ⟨enc, dec, pages⟩ | m | m
    · cases enc
      · exact Or.inl ⟨rfl, by simp [needsPrompt, encOpen, ho]⟩
      · refine Or.inr ⟨?_, by simp [needsPrompt, encOpen, ho, hvt]⟩
        dsimp only
        repeat' split <;> try rfl
        all_goals simp_all
    · exact Or.inl ⟨rfl, by simp [needsPrompt, encOpen, ho]⟩
    · exact Or.inl ⟨rfl, by simp [needsPrompt, encOpen, ho]⟩

/-- In `PromptPerFile` mode with a callback present, the per-file step invokes
the callback exactly once when the entity is valid, opens encrypted, and has
no supplied password — and not at all otherwise. -/
theorem stepEntity_pw_promptEach (cfg : MergeConfig) (env : MergeEnv)
    (pwds : String → Option String) (f : Nat → String → PromptResponse)
    (p : QueuedPDF) (pw : PwAcc)
    (hm : cfg.encryptionMode = EncryptionHandlingMode.promptEach) :
    (stepEntity cfg env pwds (some f) p pw).2.1.promptCount
      = pw.promptCount + (if needsPrompt env pwds p then 1 else 0) := by
  rcases stepEntity_pw_eq cfg env pwds (some f) p pw with ⟨he, hn⟩ | ⟨he, hn⟩
  · simp [he, hn]
  · rw [he, get_password_promptEach_count cfg _ pwds f pw hm, hn]

/-- In `SharedPassword` mode with all callback responses marked use-for-all
and not cancelled, the per-file step preserves the at-most-one-prompt
invariant. -/
theorem stepEntity_pw_single (cfg : MergeConfig) (env : MergeEnv)
    (pwds : String → Option String) (cb : PromptCallback)
    (p : QueuedPDF) (pw : PwAcc)
    (hm : cfg.encryptionMode = EncryptionHandlingMode.singlePassword)
    (hcb : ∀ g, cb = some g →
      ∀ n s, (g n s).useForAll = true ∧ (g n s).cancelled = false)
    (hJ1 : pw.promptCount ≤ 1)
    (hJ2 : 1 ≤ pw.promptCount → pw.shared.isSome = true) :
    (stepEntity cfg env pwds cb p pw).2.1.promptCount ≤ 1
    ∧ (1 ≤ (stepEntity cfg env pwds cb p pw).2.1.promptCount →
        (stepEntity cfg env pwds cb p pw).2.1.shared.isSome = true) := by
  rcases stepEntity_pw_eq cfg env pwds cb p pw with ⟨he, _⟩ | ⟨he, _⟩
  · rw [he]
    exact ⟨hJ1, hJ2⟩
  · rw [he]
    exact get_password_single_inv _ _ _ _ _ hm hcb hJ1 hJ2

/-- A cancelled or completed loop in `SkipEncrypted` mode leaves the password
state untouched. -/
theorem runLoop_pw_skip (cfg : MergeConfig) (env : MergeEnv)
    (pwds : String → Option String) (cb : PromptCallback)
    (hm : cfg.encryptionMode = EncryptionHandlingMode.skip) :
    ∀ (files : List QueuedPDF) (i : Nat) (acc : LoopAcc),
      (runLoop cfg env pwds cb files i acc).1.pw = acc.pw
  | [], _, _ => rfl
  | p :: rest, i, acc => by
      rw [runLoop]
      split
      · rfl
      · rw [runLoop_pw_skip cfg env pwds cb hm rest (i + 1) _, processFile_pw,
            stepEntity_pw_skip _ _ _ _ _ _ hm]

/-- The completed loop in `PromptPerFile` mode with a callback present
invokes the callback exactly once per entity that reaches the resolver
without a supplied password. -/
theorem loopFold_pw_promptEach (cfg : MergeConfig) (env : MergeEnv)
    (pwds : String → Option String) (f : Nat → String → PromptResponse)
    (hm : cfg.encryptionMode = EncryptionHandlingMode.promptEach) :
    ∀ (files : List QueuedPDF) (i : Nat) (acc : LoopAcc),
      (loopFold cfg env pwds (some f) files i acc).pw.promptCount
        = acc.pw.promptCount + files.countP (needsPrompt env pwds)
  | [], _, _ => by simp [loopFold]
  | p :: rest, i, acc => by
      rw [loopFold, loopFold_pw_promptEach cfg env pwds f hm rest (i + 1) _,
          processFile_pw, stepEntity_pw_promptEach cfg env pwds f _ _ hm,
          needsPrompt_hashStep, List.countP_cons]
      split <;> omega

/-- The loop in `SharedPassword` mode with all responses marked use-for-all
preserves the at-most-one-prompt invariant, whether or not it is cancelled. -/
theorem runLoop_pw_single (cfg : MergeConfig) (env : MergeEnv)
    (pwds : String → Option String) (cb : PromptCallback)
    (hm : cfg.encryptionMode = EncryptionHandlingMode.singlePassword)
    (hcb : ∀ g, cb = some g →
      ∀ n s, (g n s).useForAll = true ∧ (g n s).cancelled = false) :
    ∀ (files : List QueuedPDF) (i : Nat) (acc : LoopAcc),
      acc.pw.promptCount ≤ 1 →
      (1 ≤ acc.pw.promptCount → acc.pw.shared.isSome = true) →
      (runLoop cfg env pwds cb files i acc).1.pw.promptCount ≤ 1
  | [], _, _, hJ1, _ => hJ1
  | p :: rest, i, acc, hJ1, hJ2 => by
      rw [runLoop]
      split
      · exact hJ1
      · have hstep := stepEntity_pw_single cfg env pwds cb (hashStep cfg env p)
          acc.pw hm hcb hJ1 hJ2
        exact runLoop_pw_single cfg env pwds cb hm hcb rest (i + 1) _
          (by rw [processFile_pw]; exact hstep.1)
          (by rw [processFile_pw]; exact hstep.2)

/-!
### Branch lemmas for `MergeService.merge`
-/

/-- The early return for a queue with no valid entities (lines 147-152). -/
theorem merge_novalid (cfg : MergeConfig) (st : ServiceState) (env : MergeEnv)
    (files : List QueuedPDF) (out : String)
    (pwds : String → Option String) (cb : PromptCallback)
    (hfe : (files.filter (fun f => f.is_valid_for_merge)).isEmpty = true) :
    MergeService.merge cfg st env files out pwds cb
      = { result := { success := false
                      errorMessage := "No valid PDF files to merge"
                      skippedCount := files.length }
          finalFiles := files
          writerPages := []
          internalManifest := []
          loopMerged := 0, loopSkipped := 0, loopErrors := 0, loopPages := 0
          promptCount := 0
          sharedPasswordAfter := st.sharedPassword
          cancelledRun := false
          destAfter := env.destBefore
          tempLeft := false
          outputWritten := false } := by
  unfold MergeService.merge
  dsimp only
  rw [hfe]
  rfl

/-- Observables of a completed (never-cancelled) run, in terms of the
cancellation-free fold over the whole queue. -/
theorem merge_complete_obs (cfg : MergeConfig) (st : ServiceState)
    (env : MergeEnv) (files : List QueuedPDF) (out : String)
    (pwds : String → Option String) (cb : PromptCallback)
    (hfe : (files.filter (fun f => f.is_valid_for_merge)).isEmpty = false)
    (hnc : env.cancelFrom = none) :
    (MergeService.merge cfg st env files out pwds cb).finalFiles
        = (loopFold cfg env pwds cb files 0 (initAcc st)).processed
    ∧ (MergeService.merge cfg st env files out pwds cb).internalManifest
        = (loopFold cfg env pwds cb files 0 (initAcc st)).manifest
    ∧ (MergeService.merge cfg st env files out pwds cb).writerPages
        = (loopFold cfg env pwds cb files 0 (initAcc st)).writerPages
    ∧ (MergeService.merge cfg st env files out pwds cb).loopMerged
        = (loopFold cfg env pwds cb files 0 (initAcc st)).mergedCount
    ∧ (MergeService.merge cfg st env files out pwds cb).promptCount
        = (loopFold cfg env pwds cb files 0 (initAcc st)).pw.promptCount
    ∧ (MergeService.merge cfg st env files out pwds cb).cancelledRun = false := by
  unfold MergeService.merge
  dsimp only
  rw [runLoop_eq_loopFold cfg env pwds cb hnc files 0 (initAcc st)]
  simp only [hfe, Bool.false_eq_true, if_false]
  try dsimp only
  split <;> [skip; split] <;> refine ⟨?_, ?_, ?_, ?_, ?_, ?_⟩ <;> trivial

/-- The returned result of a completed run with at least one merged entity
and a successful write phase (lines 299-385). -/
theorem merge_result_ok (cfg : MergeConfig) (st : ServiceState)
    (env : MergeEnv) (files : List QueuedPDF) (out : String)
    (pwds : String → Option String) (cb : PromptCallback)
    (hfe : (files.filter (fun f => f.is_valid_for_merge)).isEmpty = false)
    (hnc : env.cancelFrom = none)
    (hm : (loopFold cfg env pwds cb files 0 (initAcc st)).mergedCount ≠ 0)
    (hw : env.writePhase = WriteOutcome.ok) :
    (MergeService.merge cfg st env files out pwds cb).result
      = { success := true
          outputPath := some out
          mergedCount := (loopFold cfg env pwds cb files 0 (initAcc st)).mergedCount
          skippedCount := (loopFold cfg env pwds cb files 0 (initAcc st)).skippedCount
          errorCount := (loopFold cfg env pwds cb files 0 (initAcc st)).errorCount
          totalPages := (loopFold cfg env pwds cb files 0 (initAcc st)).totalPages
          totalSizeBytes := (loopFold cfg env pwds cb files 0 (initAcc st)).writerPages.length
          manifestEntries := (loopFold cfg env pwds cb files 0 (initAcc st)).manifest }
    ∧ (MergeService.merge cfg st env files out pwds cb).outputWritten = true
    ∧ (MergeService.merge cfg st env files out pwds cb).destAfter
        = some (loopFold cfg env pwds cb files 0 (initAcc st)).writerPages
    ∧ (MergeService.merge cfg st env files out pwds cb).tempLeft = false := by
  unfold MergeService.merge
  dsimp only
  rw [runLoop_eq_loopFold cfg env pwds cb hnc files 0 (initAcc st)]
  simp only [hfe, Bool.false_eq_true, if_false]
  try dsimp only
  rw [if_neg hm, if_pos hw]
  exact ⟨rfl, rfl, rfl, rfl⟩

/-- The returned result of a completed run with at least one merged entity
whose write phase fails (lines 340-344). -/
theorem merge_result_writefail (cfg : MergeConfig) (st : ServiceState)
    (env : MergeEnv) (files : List QueuedPDF) (out : String)
    (pwds : String → Option String) (cb : PromptCallback)
    (hfe : (files.filter (fun f => f.is_valid_for_merge)).isEmpty = false)
    (hnc : env.cancelFrom = none)
    (hm : (loopFold cfg env pwds cb files 0 (initAcc st)).mergedCount ≠ 0)
    (hw : env.writePhase ≠ WriteOutcome.ok) :
    (MergeService.merge cfg st env files out pwds cb).result
      = { success := false
          outputPath := some out
          errorMessage := writeFailMessage out env.writePhase
          manifestEntries := (loopFold cfg env pwds cb files 0 (initAcc st)).manifest }
    ∧ (MergeService.merge cfg st env files out pwds cb).outputWritten = false
    ∧ (MergeService.merge cfg st env files out pwds cb).destAfter
        = destAfterFailedWrite env.writePhase env.destBefore
            (loopFold cfg env pwds cb files 0 (initAcc st)).writerPages
    ∧ (MergeService.merge cfg st env files out pwds cb).tempLeft = false := by
  unfold MergeService.merge
  dsimp only
  rw [runLoop_eq_loopFold cfg env pwds cb hnc files 0 (initAcc st)]
  simp only [hfe, Bool.false_eq_true, if_false]
  try dsimp only
  rw [if_neg hm, if_neg hw]
  exact ⟨rfl, rfl, rfl, rfl⟩

/-- The returned result of a completed run in which no entity merged
(lines 292-297). -/
theorem merge_result_nomerged (cfg : MergeConfig) (st : ServiceState)
    (env : MergeEnv) (files : List QueuedPDF) (out : String)
    (pwds : String → Option String) (cb : PromptCallback)
    (hfe : (files.filter (fun f => f.is_valid_for_merge)).isEmpty = false)
    (hnc : env.cancelFrom = none)
    (hm : (loopFold cfg env pwds cb files 0 (initAcc st)).mergedCount = 0) :
    (MergeService.merge cfg st env files out pwds cb).result
      = { success := false
          outputPath := some out
          errorMessage := "No files could be merged"
          skippedCount := (loopFold cfg env pwds cb files 0 (initAcc st)).skippedCount
          errorCount := (loopFold cfg env pwds cb files 0 (initAcc st)).errorCount
          manifestEntries := (loopFold cfg env pwds cb files 0 (initAcc st)).manifest }
    ∧ (MergeService.merge cfg st env files out pwds cb).outputWritten = false
    ∧ (MergeService.merge cfg st env files out pwds cb).destAfter = env.destBefore := by
  unfold MergeService.merge
  dsimp only
  rw [runLoop_eq_loopFold cfg env pwds cb hnc files 0 (initAcc st)]
  simp only [hfe, Bool.false_eq_true, if_false]
  try dsimp only
  rw [if_pos hm]
  exact ⟨rfl, rfl, rfl⟩

/-- Observables of a cancelled run: a concurrent cancel visible at index
`k < N` stops the loop after exactly `k` entities (lines 169-172). -/
theorem merge_cancelled_obs (cfg : MergeConfig) (st : ServiceState)
    (env : MergeEnv) (files : List QueuedPDF) (out : String)
    (pwds : String → Option String) (cb : PromptCallback) (k : Nat)
    (hfe : (files.filter (fun f => f.is_valid_for_merge)).isEmpty = false)
    (hk : env.cancelFrom = some k) (hkN : k < files.length) :
    (MergeService.merge cfg st env files out pwds cb).result
      = { success := false
          outputPath := some out
          errorMessage := "Merge cancelled" }
    ∧ (MergeService.merge cfg st env files out pwds cb).finalFiles
        = (loopFold cfg env pwds cb (files.take k) 0 (initAcc st)).processed
            ++ files.drop k
    ∧ (MergeService.merge cfg st env files out pwds cb).internalManifest
        = (loopFold cfg env pwds cb (files.take k) 0 (initAcc st)).manifest
    ∧ (MergeService.merge cfg st env files out pwds cb).cancelledRun = true
    ∧ (MergeService.merge cfg st env files out pwds cb).outputWritten = false
    ∧ (MergeService.merge cfg st env files out pwds cb).destAfter = env.destBefore
    ∧ (MergeService.merge cfg st env files out pwds cb).tempLeft = false := by
  have hrl := runLoop_cancelled cfg env pwds cb k hk files 0 (initAcc st)
    (Nat.zero_le k) (by simpa using hkN)
  rw [Nat.sub_zero] at hrl
  unfold MergeService.merge
  dsimp only
  rw [hrl]
  simp only [hfe, Bool.false_eq_true, if_false]
  refine ⟨?_, ?_, ?_, ?_, ?_, ?_, ?_⟩ <;> trivial

/-!
### Concrete fixtures

Small concrete queues and environments used to instantiate the theorems.
-/

/-- Codec behaviour: a 3-page unencrypted file, a 2-page encrypted file
accepting password `"pw"`, a file whose open raises `PdfReadError`, a file
whose page enumeration raises `PdfReadError` after yielding 2 pages, and
everything else raising a generic error. -/
def fixOpen : String → OpenResult := fun s =>
  if s = "/docs/valid.pdf" then
    OpenResult.ok false (fun _ => DecryptOutcome.ok) (PageStream.ok [10, 11, 12])
  else if s = "/docs/locked.pdf" then
    OpenResult.ok true
      (fun pw => if pw = "pw" then DecryptOutcome.ok else DecryptOutcome.failed)
      (PageStream.ok [20, 21])
  else if s = "/docs/broken.pdf" then
    OpenResult.readError "EOF marker not found"
  else if s = "/docs/torn.pdf" then
    OpenResult.ok false (fun _ => DecryptOutcome.ok)
      (PageStream.readErrorAfter [40, 41] "stream truncated")
  else
    OpenResult.otherError "boom"

/-- A benign environment: hashing unused, no concurrent cancel, write phase
succeeds, destination initially absent. -/
def benignEnv : MergeEnv :=
  { openFile := fixOpen
    hashResult := fun _ => none
    cancelFrom := none
    writePhase := WriteOutcome.ok
    destBefore := none }

/-- The valid 3-page queue entity. -/
def validPdf : QueuedPDF :=
  { filePath := "/docs/valid.pdf", fileName := "valid.pdf", sizeBytes := 300 }

/-- The encrypted 2-page queue entity (no password supplied anywhere). -/
def lockedPdf : QueuedPDF :=
  { filePath := "/docs/locked.pdf", fileName := "locked.pdf", sizeBytes := 200 }

/-- The corrupt queue entity. -/
def brokenPdf : QueuedPDF :=
  { filePath := "/docs/broken.pdf", fileName := "broken.pdf", sizeBytes := 100 }

/-- An entity excluded before the run began (duplicate resolution). -/
def preSkippedPdf : QueuedPDF :=
  { filePath := "/docs/dup.pdf", fileName := "dup.pdf", sizeBytes := 50
    status := FileStatus.skipped, skipReason := "duplicate" }

/-- Empty supplied-password map. -/
def noPasswords : String → Option String := fun _ => none

/-- Service configured with `SkipEncrypted`, hashing off. -/
def cfgSkip : MergeConfig :=
  { encryptionMode := EncryptionHandlingMode.skip, computeHashes := false }

/-- The reference scenario run: queue `[validPdf, lockedPdf, brokenPdf]`,
mode `SkipEncrypted`, benign environment. -/
def scenarioRun : RunOutput :=
  MergeService.merge cfgSkip {} benignEnv [validPdf, lockedPdf, brokenPdf]
    "/out/merged.pdf" noPasswords none

/-- An entity that (anomalously) already carries `Merged` status at queue
entry, with a stale recorded page count. -/
def preMergedPdf : QueuedPDF :=
  { filePath := "/docs/old.pdf", fileName := "old.pdf", sizeBytes := 70
    status := FileStatus.merged, pageCount := some 5 }

/-- Environment in which a concurrent cancel becomes visible at loop index 1. -/
def cancelAt1Env : MergeEnv :=
  { benignEnv with cancelFrom := some 1 }

/-- Environment in which the move to the destination fails on the rename
path, leaving the destination untouched. -/
def moveFailEnv : MergeEnv :=
  { benignEnv with writePhase := WriteOutcome.moveFail "disk full" none
                   destBefore := some [90, 91] }

/-- Environment in which the move crosses filesystems and its `copy2`
fallback fails after copying 2 pages' worth of the staged document. -/
def moveCopyFailEnv : MergeEnv :=
  { benignEnv with
      writePhase := WriteOutcome.moveFail "No space left on device" (some 2) }

/-- The entity whose page enumeration fails after yielding 2 pages. -/
def tornPdf : QueuedPDF :=
  { filePath := "/docs/torn.pdf", fileName := "torn.pdf", sizeBytes := 80 }

/-- Codec behaviour with two encrypted single-page files. -/
def fixOpenTwoLocked : String → OpenResult := fun s =>
  if s = "/docs/a.pdf" ∨ s = "/docs/b.pdf" then
    OpenResult.ok true (fun _ => DecryptOutcome.ok) (PageStream.ok [1])
  else
    OpenResult.otherError "boom"

/-- Environment holding the two encrypted files. -/
def twoLockedEnv : MergeEnv :=
  { benignEnv with openFile := fixOpenTwoLocked }

/-- The first encrypted queue entity. -/
def lockedA : QueuedPDF := { filePath := "/docs/a.pdf", fileName := "a.pdf" }

/-- The second encrypted queue entity. -/
def lockedB : QueuedPDF := { filePath := "/docs/b.pdf", fileName := "b.pdf" }

/-- A callback that always answers with password `"zz"`, use-for-all not set,
not cancelled. -/
def cbNoUseForAll : Nat → String → PromptResponse :=
  fun _ _ => { password := "zz", useForAll := false, cancelled := false }

/-- A callback that always answers with password `"zz"` marked use-for-all. -/
def cbUseForAll : Nat → String → PromptResponse :=
  fun _ _ => { password := "zz", useForAll := true, cancelled := false }

/-- Service configured with `PromptPerFile`. -/
def cfgPromptEach : MergeConfig :=
  { encryptionMode := EncryptionHandlingMode.promptEach }

/-- Service configured with `SharedPassword`. -/
def cfgSingle : MergeConfig :=
  { encryptionMode := EncryptionHandlingMode.singlePassword }

/-!
### Claim theorems
-/

/-- C10: `merge()` clears the cancellation flag at entry, so a `cancel()`
issued before `merge()` begins has no effect on that run (the run's entire
observable output is independent of the entry value of the flag), and
`reset()` clears both the flag and the cached shared password. -/
theorem merge_clears_cancel_and_reset_clears_state :
    (∀ (cfg : MergeConfig) (st : ServiceState) (env : MergeEnv)
        (files : List QueuedPDF) (out : String)
        (pwds : String → Option String) (cb : PromptCallback),
      MergeService.merge cfg (MergeService.cancel st) env files out pwds cb
        = MergeService.merge cfg st env files out pwds cb)
    ∧ (∀ s : ServiceState,
        MergeService.reset s = { cancelled := false, sharedPassword := none }) := by
  constructor
  · intro cfg st env files out pwds cb
    cases st
    rfl
  · intro s
    rfl

/-- C9: validation is idempotent — re-running it on the same entity with the
file's observations unchanged reproduces the same entity (same status, page
count, status message) — and its classification does not read the entity's
prior status. -/
theorem validate_idempotent_and_status_blind (env : ProbeEnv) (p : QueuedPDF)
    (b : Bool) :
    validate_and_update_queued_pdf env (validate_and_update_queued_pdf env p b) b
      = validate_and_update_queued_pdf env p b
    ∧ ∀ s : FileStatus,
        validate_and_update_queued_pdf env { p with status := s } b
          = validate_and_update_queued_pdf env p b := by
  constructor
  · unfold validate_and_update_queued_pdf
    split_ifs <;> rfl
  · intro s
    unfold validate_and_update_queued_pdf
    split_ifs <;> rfl

theorem processFile_skippedCount (cfg : MergeConfig) (env : MergeEnv)
    (pwds : String → Option String) (cb : PromptCallback)
    (i : Nat) (p : QueuedPDF) (acc : LoopAcc) :
    (processFile cfg env pwds cb i p acc).skippedCount
      = acc.skippedCount
        + (match (stepEntity cfg env pwds cb (hashStep cfg env p) acc.pw).2.2.1 with
           | StepKind.invalid =>
               if (stepEntity cfg env pwds cb (hashStep cfg env p) acc.pw).1.status
                    = FileStatus.pending
                  ∨ (stepEntity cfg env pwds cb (hashStep cfg env p) acc.pw).1.status
                    = FileStatus.ready
               then 0 else 1
           | StepKind.skipEnc => 1
           | _ => 0) := rfl

theorem processFile_errorCount (cfg : MergeConfig) (env : MergeEnv)
    (pwds : String → Option String) (cb : PromptCallback)
    (i : Nat) (p : QueuedPDF) (acc : LoopAcc) :
    (processFile cfg env pwds cb i p acc).errorCount
      = acc.errorCount
        + (match (stepEntity cfg env pwds cb (hashStep cfg env p) acc.pw).2.2.1 with
           | StepKind.corrupt => 1
           | StepKind.err => 1
           | _ => 0) := rfl

/-- C7 (amended): an entity whose status at merge time is outside
`{Pending, Ready}` skips page accumulation and still emits exactly one
manifest entry, and the skipped counter is always incremented — including for
entities already excluded before the run began (e.g. pre-marked Skipped): the
source's guard `status not in (PENDING, READY)` is always true in this
branch. -/
theorem invalid_entity_skips_pages_and_counts_skipped (cfg : MergeConfig)
    (env : MergeEnv) (pwds : String → Option String) (cb : PromptCallback)
    (i : Nat) (p : QueuedPDF) (acc : LoopAcc)
    (h : ¬(p.status = FileStatus.pending ∨ p.status = FileStatus.ready)) :
    (processFile cfg env pwds cb i p acc).skippedCount = acc.skippedCount + 1
    ∧ (processFile cfg env pwds cb i p acc).manifest
        = acc.manifest ++ [createManifestEntry (i + 1) (hashStep cfg env p)]
    ∧ (processFile cfg env pwds cb i p acc).writerPages = acc.writerPages
    ∧ (processFile cfg env pwds cb i p acc).totalPages = acc.totalPages
    ∧ (processFile cfg env pwds cb i p acc).mergedCount = acc.mergedCount
    ∧ (processFile cfg env pwds cb i p acc).errorCount = acc.errorCount := by
  have hv : (hashStep cfg env p).is_valid_for_merge = false := by
    rw [hashStep_valid]
    simp [QueuedPDF.is_valid_for_merge, h]
  have hstep : stepEntity cfg env pwds cb (hashStep cfg env p) acc.pw
      = (hashStep cfg env p, acc.pw, StepKind.invalid, []) := by
    unfold stepEntity
    rw [if_pos hv]
  have hcond : ¬((hashStep cfg env p).status = FileStatus.pending
      ∨ (hashStep cfg env p).status = FileStatus.ready) := by
    rw [hashStep_status]
    exact h
  refine ⟨?_, ?_, ?_, ?_, ?_, ?_⟩
  · rw [processFile_skippedCount, hstep]
    dsimp only
    rw [if_neg hcond]
  · rw [processFile_manifest, hstep]
  · rw [processFile_writerPages, hstep]
    simp
  · rw [processFile_totalPages, hstep]
    rfl
  · rw [processFile_mergedCount, hstep]
    simp
  · rw [processFile_errorCount, hstep]
    rfl

/-- C7 counterexample: a queue whose first entity is pre-marked `Skipped`
(excluded before the run began).  The claim requires the skipped counter NOT
to be incremented for it, but the run ends with `skipped_count = 1`. -/
theorem premarked_skipped_still_increments_counter :
    preSkippedPdf.status = FileStatus.skipped
    ∧ (MergeService.merge cfgSkip {} benignEnv [preSkippedPdf, validPdf]
        "/out/m.pdf" noPasswords none).result.skippedCount = 1 := by
  constructor
  · rfl
  · decide

/-- C7 witness: the amended theorem applied to the concrete pre-skipped
entity. -/
theorem invalid_entity_skips_pages_witness :
    ¬(preSkippedPdf.status = FileStatus.pending
        ∨ preSkippedPdf.status = FileStatus.ready)
    ∧ (processFile cfgSkip benignEnv noPasswords none 0 preSkippedPdf
          (initAcc {})).skippedCount = (initAcc {}).skippedCount + 1 :=
  ⟨by decide,
   (invalid_entity_skips_pages_and_counts_skipped cfgSkip benignEnv noPasswords
      none 0 preSkippedPdf (initAcc {}) (by decide)).1⟩

/-- C4 (amended): a queue in which no entity is valid for merge (every status
outside `{Pending, Ready}`, e.g. all pre-marked Skipped) is caught by the
pre-loop filter: the run returns `success = false` with error message
`"No valid PDF files to merge"`, `skipped_count` equal to the queue length,
merged count 0, an EMPTY manifest, and writes no output. -/
theorem all_invalid_queue_early_return (cfg : MergeConfig) (st : ServiceState)
    (env : MergeEnv) (files : List QueuedPDF) (out : String)
    (pwds : String → Option String) (cb : PromptCallback)
    (h : ∀ f ∈ files, f.is_valid_for_merge = false) :
    (MergeService.merge cfg st env files out pwds cb).result
      = { success := false
          errorMessage := "No valid PDF files to merge"
          skippedCount := files.length }
    ∧ (MergeService.merge cfg st env files out pwds cb).outputWritten = false
    ∧ (MergeService.merge cfg st env files out pwds cb).destAfter
        = env.destBefore
    ∧ (MergeService.merge cfg st env files out pwds cb).internalManifest = [] := by
  have hfe : (files.filter (fun f => f.is_valid_for_merge)).isEmpty = true := by
    rw [List.isEmpty_iff, List.filter_eq_nil_iff]
    intro a ha
    simp [h a ha]
  rw [merge_novalid cfg st env files out pwds cb hfe]
  exact ⟨rfl, rfl, rfl, rfl⟩

/-- C4 counterexample: for the all-pre-marked-Skipped queue
`[preSkippedPdf]` the claim predicts error message
`"no files could be merged"` and a manifest of length 1; the run actually
returns `"No valid PDF files to merge"` and an empty manifest. -/
theorem all_skipped_queue_message_and_manifest :
    (MergeService.merge cfgSkip {} benignEnv [preSkippedPdf] "/out/m.pdf"
        noPasswords none).result.errorMessage = "No valid PDF files to merge"
    ∧ "No valid PDF files to merge" ≠ "no files could be merged"
    ∧ (MergeService.merge cfgSkip {} benignEnv [preSkippedPdf] "/out/m.pdf"
        noPasswords none).result.manifestEntries.length = 0
    ∧ ([preSkippedPdf] : List QueuedPDF).length = 1 := by
  refine ⟨by decide, by decide, by decide, rfl⟩

/-- C4 witness: the amended theorem applied to the concrete all-skipped
queue. -/
theorem all_invalid_queue_early_return_witness :
    (∀ f ∈ [preSkippedPdf], f.is_valid_for_merge = false)
    ∧ (MergeService.merge cfgSkip {} benignEnv [preSkippedPdf] "/out/m.pdf"
        noPasswords none).result
      = { success := false
          errorMessage := "No valid PDF files to merge"
          skippedCount := 1 } :=
  ⟨by decide,
   (all_invalid_queue_early_return cfgSkip {} benignEnv [preSkippedPdf]
      "/out/m.pdf" noPasswords none (by decide)).1⟩

/-- C6 (amended): if the cancellation flag is set before entity `k` is
processed (and the queue passed the initial validity filter), the run stops
at the cancellation check of iteration `k`: no entity at queue position `≥ k`
is processed (the suffix from `k` is returned untouched), no output is
written, the destination is untouched, and the returned result is
`success = false` with error message `"Merge cancelled"` — but its manifest
list is EMPTY: the entries accumulated for the `k` files processed so far are
not attached to the returned result. -/
theorem cancellation_stops_loop_and_returns_bare_result (cfg : MergeConfig)
    (st : ServiceState) (env : MergeEnv) (files : List QueuedPDF) (out : String)
    (pwds : String → Option String) (cb : PromptCallback) (k : Nat)
    (hfe : (files.filter (fun f => f.is_valid_for_merge)).isEmpty = false)
    (hk : env.cancelFrom = some k) (hkN : k < files.length) :
    (MergeService.merge cfg st env files out pwds cb).result
      = { success := false
          outputPath := some out
          errorMessage := "Merge cancelled" }
    ∧ (MergeService.merge cfg st env files out pwds cb).internalManifest.length
        = k
    ∧ (MergeService.merge cfg st env files out pwds cb).finalFiles.drop k
        = files.drop k
    ∧ (MergeService.merge cfg st env files out pwds cb).cancelledRun = true
    ∧ (MergeService.merge cfg st env files out pwds cb).outputWritten = false
    ∧ (MergeService.merge cfg st env files out pwds cb).destAfter
        = env.destBefore
    ∧ (MergeService.merge cfg st env files out pwds cb).tempLeft = false := by
  have hobs := merge_cancelled_obs cfg st env files out pwds cb k hfe hk hkN
  have htk : (files.take k).length = k := by
    rw [List.length_take]
    omega
  have hplen : (loopFold cfg env pwds cb (files.take k) 0 (initAcc st)).processed.length
      = k := by
    rw [loopFold_processed_len]
    simp [initAcc, htk]
  refine ⟨hobs.1, ?_, ?_, hobs.2.2.2.1, hobs.2.2.2.2.1, hobs.2.2.2.2.2.1,
    hobs.2.2.2.2.2.2⟩
  · rw [hobs.2.2.1, loopFold_manifest_len]
    simp [initAcc, htk]
  · rw [hobs.2.1]
    have hdl := List.drop_left
      (loopFold cfg env pwds cb (files.take k) 0 (initAcc st)).processed
      (files.drop k)
    rw [hplen] at hdl
    exact hdl

/-- C6 counterexample: cancelling before entity 1 of `[validPdf, brokenPdf]`
leaves entity 0 processed (it ends `Merged`, and one manifest entry was
accumulated internally), yet the returned result's manifest list is empty
rather than containing the entry for the file processed so far. -/
theorem cancelled_result_lacks_processed_manifest :
    (MergeService.merge cfgSkip {} cancelAt1Env [validPdf, brokenPdf]
        "/out/m.pdf" noPasswords none).finalFiles.map (fun f => f.status)
      = [FileStatus.merged, FileStatus.pending]
    ∧ (MergeService.merge cfgSkip {} cancelAt1Env [validPdf, brokenPdf]
        "/out/m.pdf" noPasswords none).internalManifest.length = 1
    ∧ (MergeService.merge cfgSkip {} cancelAt1Env [validPdf, brokenPdf]
        "/out/m.pdf" noPasswords none).result.manifestEntries = [] := by
  refine ⟨by decide, by decide, by decide⟩

/-- C6 witness: the amended theorem applied to the concrete cancelled run. -/
theorem cancellation_stops_loop_witness :
    (([validPdf, brokenPdf].filter (fun f => f.is_valid_for_merge)).isEmpty
        = false)
    ∧ cancelAt1Env.cancelFrom = some 1
    ∧ 1 < ([validPdf, brokenPdf] : List QueuedPDF).length
    ∧ (MergeService.merge cfgSkip {} cancelAt1Env [validPdf, brokenPdf]
        "/out/m.pdf" noPasswords none).result
      = { success := false
          outputPath := some "/out/m.pdf"
          errorMessage := "Merge cancelled" } :=
  ⟨by decide, rfl, by decide,
   (cancellation_stops_loop_and_returns_bare_result cfgSkip {} cancelAt1Env
      [validPdf, brokenPdf] "/out/m.pdf" noPasswords none 1 (by decide) rfl
      (by decide)).1⟩

/-- A failed write phase in a run that reached it (no cancellation, at least
one entity merged): the result is failed with the structured output-write
message and carries the accumulated manifest entries (one per queue entity),
the temp file is deleted, and the destination holds whatever the failed move
left there per `destAfterFailedWrite` â its pre-run content on the rename
path, but a copied prefix of the staged document when the cross-filesystem
fallback was interrupted. -/
theorem write_failure_result_and_destination (cfg : MergeConfig)
    (st : ServiceState) (env : MergeEnv) (files : List QueuedPDF) (out : String)
    (pwds : String → Option String) (cb : PromptCallback)
    (hnc : env.cancelFrom = none)
    (hm : (MergeService.merge cfg st env files out pwds cb).loopMerged ≠ 0)
    (hw : env.writePhase ≠ WriteOutcome.ok) :
    (MergeService.merge cfg st env files out pwds cb).result.success = false
    ∧ (MergeService.merge cfg st env files out pwds cb).result.manifestEntries
        = (MergeService.merge cfg st env files out pwds cb).internalManifest
    ∧ (MergeService.merge cfg st env files out pwds cb).internalManifest.length
        = files.length
    ∧ (MergeService.merge cfg st env files out pwds cb).result.errorMessage
        = writeFailMessage out env.writePhase
    ∧ (MergeService.merge cfg st env files out pwds cb).tempLeft = false
    ∧ (MergeService.merge cfg st env files out pwds cb).destAfter
        = destAfterFailedWrite env.writePhase env.destBefore
            (MergeService.merge cfg st env files out pwds cb).writerPages
    ∧ (MergeService.merge cfg st env files out pwds cb).outputWritten = false := by
  by_cases hfe : (files.filter (fun f => f.is_valid_for_merge)).isEmpty = true
  · exact absurd (congrArg RunOutput.loopMerged
      (merge_novalid cfg st env files out pwds cb hfe)) hm
  · simp only [Bool.not_eq_true] at hfe
    have hobs := merge_complete_obs cfg st env files out pwds cb hfe hnc
    have hA : (loopFold cfg env pwds cb files 0 (initAcc st)).mergedCount ≠ 0 := by
      rw [← hobs.2.2.2.1]
      exact hm
    have hres := merge_result_writefail cfg st env files out pwds cb hfe hnc hA hw
    refine ⟨?_, ?_, ?_, ?_, hres.2.2.2, ?_, hres.2.1⟩
    · rw [hres.1]
    · rw [hres.1, hobs.2.1]
    · rw [hobs.2.1, loopFold_manifest_len]
      simp [initAcc]
    · rw [hres.1]
    · rw [hres.2.2.1, hobs.2.2.1]

/-- C3: the failing input for the non-atomic write path.  The staged 3-page
document is moved from the mkstemp temp file (system temp directory,
merge_service.py line 323) by `shutil.move` (line 331); when that move
crosses filesystems its `copy2` fallback is not atomic, and failing after 2
pages' worth of the document had been copied leaves a truncated 2-page
partial document visible at the previously-absent destination, while the run
returns a failed result carrying the manifest — diverging from the claim that
the destination is never left holding a partial document. -/
theorem move_fallback_leaves_partial_document :
    (MergeService.merge cfgSkip {} moveCopyFailEnv [validPdf] "/out/m.pdf"
        noPasswords none).writerPages = [10, 11, 12]
    ∧ moveCopyFailEnv.destBefore = none
    ∧ (MergeService.merge cfgSkip {} moveCopyFailEnv [validPdf] "/out/m.pdf"
        noPasswords none).destAfter = some [10, 11]
    ∧ (MergeService.merge cfgSkip {} moveCopyFailEnv [validPdf] "/out/m.pdf"
        noPasswords none).result.success = false
    ∧ (MergeService.merge cfgSkip {} moveCopyFailEnv [validPdf] "/out/m.pdf"
        noPasswords none).result.manifestEntries.length = 1 := by
  refine ⟨by decide, rfl, by decide, by decide, by decide⟩

/-- C1 (amended): for every queue with no entity already `Merged` at entry,
in a run that is never cancelled, whose output write succeeds, and in which
no file's page enumeration fails mid-iteration (a lazy `reader.pages`
failure leaves a partial page prefix in the writer and in `total_pages`
while the entity ends Corrupt/Error — see the counterexample), with at least
one entity ending `Merged`: the reported total page count equals the sum of
the recorded page counts of exactly the entities that end `Merged`, and the
pages accumulated in the writer are the concatenation, in queue order, of
the merged files' page lists with each file's internal page order
preserved. -/
theorem merged_pages_sum_and_queue_order (cfg : MergeConfig)
    (st : ServiceState) (env : MergeEnv) (files : List QueuedPDF) (out : String)
    (pwds : String → Option String) (cb : PromptCallback)
    (hnc : env.cancelFrom = none)
    (hw : env.writePhase = WriteOutcome.ok)
    (hpre : ∀ f ∈ files, f.status ≠ FileStatus.merged)
    (hcomp : ∀ f ∈ files, pagesComplete (env.openFile f.filePath) = true)
    (hm : ∃ f ∈ (MergeService.merge cfg st env files out pwds cb).finalFiles,
        f.status = FileStatus.merged) :
    (MergeService.merge cfg st env files out pwds cb).result.totalPages
        = sumMergedPages (MergeService.merge cfg st env files out pwds cb).finalFiles
    ∧ (MergeService.merge cfg st env files out pwds cb).writerPages
        = joinMergedPages env
            (MergeService.merge cfg st env files out pwds cb).finalFiles := by
  by_cases hfe : (files.filter (fun f => f.is_valid_for_merge)).isEmpty = true
  · exfalso
    rw [merge_novalid cfg st env files out pwds cb hfe] at hm
    obtain ⟨f, hf, hfs⟩ := hm
    exact hpre f hf hfs
  · simp only [Bool.not_eq_true] at hfe
    have hobs := merge_complete_obs cfg st env files out pwds cb hfe hnc
    have hinv := loopFold_pagesInv cfg env pwds cb files 0 (initAcc st) hpre
      hcomp rfl rfl rfl
    have hA : (loopFold cfg env pwds cb files 0 (initAcc st)).mergedCount ≠ 0 := by
      rw [hobs.1] at hm
      obtain ⟨f, hf, hfs⟩ := hm
      have hpos : 0 < countMerged
          (loopFold cfg env pwds cb files 0 (initAcc st)).processed := by
        rw [countMerged]
        exact List.countP_pos_iff.mpr ⟨f, hf, by simp [hfs]⟩
      rw [hinv.2.2]
      omega
    have hres := merge_result_ok cfg st env files out pwds cb hfe hnc hA hw
    constructor
    · rw [hres.1, hobs.1]
      exact hinv.1
    · rw [hobs.2.2.1, hobs.1]
      exact hinv.2.1

/-- C1 counterexample: four runs inside the claim's stated domain (non-empty
queue, at least one entity ending `Merged`) where the reported total differs
from the sum over final-`Merged` entities: (a) an entity pre-marked `Merged`
with a stale page count bypasses accumulation but still counts in the sum;
(b) a run cancelled after its first file merged reports 0 pages; (c) a run
whose output write fails reports 0 pages; (d) a file whose page enumeration
raises after yielding 2 pages leaves that prefix in the writer and in the
reported total (5 pages reported, 3 pages of `Merged` entities, writer pages
not equal to the merged files' pages in queue order) while it ends
`Corrupt`. -/
theorem total_pages_mismatch_examples :
    ((MergeService.merge cfgSkip {} benignEnv [preMergedPdf, validPdf]
        "/out/m.pdf" noPasswords none).result.totalPages = 3
      ∧ sumMergedPages (MergeService.merge cfgSkip {} benignEnv
          [preMergedPdf, validPdf] "/out/m.pdf" noPasswords none).finalFiles = 8)
    ∧ ((MergeService.merge cfgSkip {} cancelAt1Env [validPdf, brokenPdf]
        "/out/m.pdf" noPasswords none).result.totalPages = 0
      ∧ sumMergedPages (MergeService.merge cfgSkip {} cancelAt1Env
          [validPdf, brokenPdf] "/out/m.pdf" noPasswords none).finalFiles = 3)
    ∧ ((MergeService.merge cfgSkip {} moveFailEnv [validPdf] "/out/m.pdf"
        noPasswords none).result.totalPages = 0
      ∧ sumMergedPages (MergeService.merge cfgSkip {} moveFailEnv [validPdf]
          "/out/m.pdf" noPasswords none).finalFiles = 3)
    ∧ ((MergeService.merge cfgSkip {} benignEnv [tornPdf, validPdf]
        "/out/m.pdf" noPasswords none).result.totalPages = 5
      ∧ sumMergedPages (MergeService.merge cfgSkip {} benignEnv
          [tornPdf, validPdf] "/out/m.pdf" noPasswords none).finalFiles = 3
      ∧ (MergeService.merge cfgSkip {} benignEnv [tornPdf, validPdf]
          "/out/m.pdf" noPasswords none).writerPages = [40, 41, 10, 11, 12]
      ∧ joinMergedPages benignEnv (MergeService.merge cfgSkip {} benignEnv
          [tornPdf, validPdf] "/out/m.pdf" noPasswords none).finalFiles
        = [10, 11, 12]
      ∧ (MergeService.merge cfgSkip {} benignEnv [tornPdf, validPdf]
          "/out/m.pdf" noPasswords none).finalFiles.map (fun f => f.status)
        = [FileStatus.corrupt, FileStatus.merged]) := by
  refine ⟨⟨by decide, by decide⟩, ⟨by decide, by decide⟩, ⟨by decide, by decide⟩,
    by decide, by decide, by decide, by decide, by decide⟩

/-- C1 witness: the amended theorem applied to the reference scenario run. -/
theorem merged_pages_sum_witness :
    benignEnv.cancelFrom = none
    ∧ benignEnv.writePhase = WriteOutcome.ok
    ∧ (∀ f ∈ [validPdf, lockedPdf, brokenPdf], f.status ≠ FileStatus.merged)
    ∧ (∀ f ∈ [validPdf, lockedPdf, brokenPdf],
        pagesComplete (benignEnv.openFile f.filePath) = true)
    ∧ (∃ f ∈ (MergeService.merge cfgSkip {} benignEnv
          [validPdf, lockedPdf, brokenPdf] "/out/merged.pdf" noPasswords
          none).finalFiles, f.status = FileStatus.merged)
    ∧ (MergeService.merge cfgSkip {} benignEnv [validPdf, lockedPdf, brokenPdf]
        "/out/merged.pdf" noPasswords none).result.totalPages
      = sumMergedPages (MergeService.merge cfgSkip {} benignEnv
          [validPdf, lockedPdf, brokenPdf] "/out/merged.pdf" noPasswords
          none).finalFiles :=
  ⟨rfl, rfl, by decide, by decide, by decide,
   (merged_pages_sum_and_queue_order cfgSkip {} benignEnv
      [validPdf, lockedPdf, brokenPdf] "/out/merged.pdf" noPasswords none
      rfl rfl (by decide) (by decide) (by decide)).1⟩

/-- C2 (amended): for every queue of N entities whose per-file loop runs to
completion (no cancellation) with at least one entity merged and whose output
write succeeds, the returned result carries exactly N manifest entries — one
per entity in queue order, indexed 1..N regardless of outcome branch — and is
successful.  (With a failing output write the N entries are still attached,
but the result is failed, per the atomicity behaviour.) -/
theorem completed_run_manifest_count_and_success (cfg : MergeConfig)
    (st : ServiceState) (env : MergeEnv) (files : List QueuedPDF) (out : String)
    (pwds : String → Option String) (cb : PromptCallback)
    (hnc : env.cancelFrom = none)
    (hm : (MergeService.merge cfg st env files out pwds cb).loopMerged ≠ 0)
    (hw : env.writePhase = WriteOutcome.ok) :
    (MergeService.merge cfg st env files out pwds cb).result.manifestEntries.length
        = files.length
    ∧ (MergeService.merge cfg st env files out pwds cb).result.manifestEntries.map
          (fun e => e.index)
        = List.range' 1 files.length
    ∧ (MergeService.merge cfg st env files out pwds cb).result.success = true := by
  by_cases hfe : (files.filter (fun f => f.is_valid_for_merge)).isEmpty = true
  · exact absurd (congrArg RunOutput.loopMerged
      (merge_novalid cfg st env files out pwds cb hfe)) hm
  · simp only [Bool.not_eq_true] at hfe
    have hobs := merge_complete_obs cfg st env files out pwds cb hfe hnc
    have hA : (loopFold cfg env pwds cb files 0 (initAcc st)).mergedCount ≠ 0 := by
      rw [← hobs.2.2.2.1]
      exact hm
    have hres := merge_result_ok cfg st env files out pwds cb hfe hnc hA hw
    refine ⟨?_, ?_, ?_⟩
    · rw [hres.1]
      show (loopFold cfg env pwds cb files 0 (initAcc st)).manifest.length
        = files.length
      rw [loopFold_manifest_len]
      simp [initAcc]
    · rw [hres.1]
      show (loopFold cfg env pwds cb files 0 (initAcc st)).manifest.map
          (fun e => e.index) = List.range' 1 files.length
      rw [loopFold_manifest_index]
      simp [initAcc]
    · rw [hres.1]

/-- C2 counterexample: a queue of one valid file, processed to completion with
that entity merged, whose output move fails: the result still carries the one
manifest entry, but `success` is `false`, refuting "the result is successful
if at least one entity merged". -/
theorem completed_run_not_successful_on_write_failure :
    (MergeService.merge cfgSkip {} moveFailEnv [validPdf] "/out/m.pdf"
        noPasswords none).finalFiles.map (fun f => f.status)
      = [FileStatus.merged]
    ∧ (MergeService.merge cfgSkip {} moveFailEnv [validPdf] "/out/m.pdf"
        noPasswords none).result.manifestEntries.length = 1
    ∧ (MergeService.merge cfgSkip {} moveFailEnv [validPdf] "/out/m.pdf"
        noPasswords none).result.success = false := by
  refine ⟨by decide, by decide, by decide⟩

/-- C2 witness: the amended theorem applied to the reference scenario run. -/
theorem completed_run_manifest_count_witness :
    benignEnv.cancelFrom = none
    ∧ (MergeService.merge cfgSkip {} benignEnv [validPdf, lockedPdf, brokenPdf]
        "/out/merged.pdf" noPasswords none).loopMerged ≠ 0
    ∧ benignEnv.writePhase = WriteOutcome.ok
    ∧ (MergeService.merge cfgSkip {} benignEnv [validPdf, lockedPdf, brokenPdf]
        "/out/merged.pdf" noPasswords none).result.manifestEntries.length = 3 :=
  ⟨rfl, by decide, rfl,
   (completed_run_manifest_count_and_success cfgSkip {} benignEnv
      [validPdf, lockedPdf, brokenPdf] "/out/merged.pdf" noPasswords none
      rfl (by decide) rfl).1⟩

/-- The decrypt behaviour of the fixture's encrypted file: accepts `"pw"`. -/
def decLocked : String → DecryptOutcome :=
  fun pw => if pw = "pw" then DecryptOutcome.ok else DecryptOutcome.failed

/-- C5 (amended): an encrypted entity reached at merge time for which the
resolver yields no password is set `Encrypted` with skip-reason `"skipped"`
and status message `"Skipped"` (manifest string `"Encrypted - skipped"`, not
`"Encrypted - no password"`); one whose password the codec rejects is set
`Encrypted` with skip-reason `"password failed"` and message
`"Wrong password"` (manifest string `"Encrypted - password failed"`); and in
the reference scenario [valid 3-page, encrypted without password, corrupt]
under `SkipEncrypted` the manifest statuses are `"Merged"`,
`"Encrypted - skipped"`, `"Skipped - corrupt/unreadable"`, with counts
merged=1, skipped=1, error=1, total_pages=3. -/
theorem encrypted_skip_reasons_and_reference_scenario (cfg : MergeConfig)
    (env : MergeEnv) (pwds : String → Option String) (cb : PromptCallback)
    (p : QueuedPDF) (pw : PwAcc) (dec : String → DecryptOutcome)
    (pages : PageStream)
    (h1 : p.is_valid_for_merge = true)
    (ho : env.openFile p.filePath = OpenResult.ok true dec pages) :
    (∀ pw1,
      MergeService.get_password_for_file cfg
          { p with status := FileStatus.processing, isEncrypted := true }
          pwds cb pw = (none, pw1) →
      (stepEntity cfg env pwds cb p pw).1.status = FileStatus.encrypted
      ∧ (stepEntity cfg env pwds cb p pw).1.skipReason = "skipped"
      ∧ (stepEntity cfg env pwds cb p pw).1.statusMessage = "Skipped"
      ∧ (stepEntity cfg env pwds cb p pw).1.manifest_status
          = "Encrypted - skipped")
    ∧ (∀ pwd pw1,
      MergeService.get_password_for_file cfg
          { p with status := FileStatus.processing, isEncrypted := true }
          pwds cb pw = (some pwd, pw1) →
      dec pwd = DecryptOutcome.failed →
      (stepEntity cfg env pwds cb p pw).1.status = FileStatus.encrypted
      ∧ (stepEntity cfg env pwds cb p pw).1.skipReason = "password failed"
      ∧ (stepEntity cfg env pwds cb p pw).1.statusMessage = "Wrong password"
      ∧ (stepEntity cfg env pwds cb p pw).1.manifest_status
          = "Encrypted - password failed")
    ∧ (scenarioRun.result.mergedCount = 1
      ∧ scenarioRun.result.skippedCount = 1
      ∧ scenarioRun.result.errorCount = 1
      ∧ scenarioRun.result.totalPages = 3
      ∧ scenarioRun.result.manifestEntries.map (fun e => e.status)
          = ["Merged", "Encrypted - skipped", "Skipped - corrupt/unreadable"]) := by
  have hv : ¬(p.is_valid_for_merge = false) := by simp [h1]
  refine ⟨?_, ?_, by decide, by decide, by decide, by decide, by decide⟩
  · intro pw1 hgp
    have hfst := congrArg Prod.fst hgp
    unfold stepEntity
    dsimp only
    rw [if_neg hv, ho]
    dsimp only
    rw [if_pos rfl, hfst]
    exact ⟨rfl, rfl, rfl, rfl⟩
  · intro pwd pw1 hgp hdec
    have hfst := congrArg Prod.fst hgp
    unfold stepEntity
    dsimp only
    rw [if_neg hv, ho]
    dsimp only
    rw [if_pos rfl, hfst]
    dsimp only
    rw [hdec]
    exact ⟨rfl, rfl, rfl, rfl⟩

/-- C5 counterexample: in the reference scenario, the manifest status of the
encrypted entity (queue position 2) is `"Encrypted - skipped"`, not the
claimed `"Encrypted - no password"`, and its recorded skip-reason is
`"skipped"`, not `"no password"`. -/
theorem encrypted_manifest_status_is_not_no_password :
    scenarioRun.result.manifestEntries.map (fun e => e.status)
      = ["Merged", "Encrypted - skipped", "Skipped - corrupt/unreadable"]
    ∧ "Encrypted - skipped" ≠ "Encrypted - no password"
    ∧ scenarioRun.finalFiles.map (fun f => f.skipReason)
      = ["", "skipped", "corrupt"] := by
  refine ⟨by decide, by decide, by decide⟩

/-- C5 witness: the amended theorem applied to the concrete encrypted fixture
entity under `SkipEncrypted`. -/
theorem encrypted_skip_reasons_witness :
    lockedPdf.is_valid_for_merge = true
    ∧ benignEnv.openFile lockedPdf.filePath
        = OpenResult.ok true decLocked (PageStream.ok [20, 21])
    ∧ MergeService.get_password_for_file cfgSkip
        { lockedPdf with status := FileStatus.processing, isEncrypted := true }
        noPasswords none { shared := none, promptCount := 0 }
      = (none, { shared := none, promptCount := 0 })
    ∧ (stepEntity cfgSkip benignEnv noPasswords none lockedPdf
        { shared := none, promptCount := 0 }).1.manifest_status
      = "Encrypted - skipped" :=
  ⟨by decide, rfl, by decide,
   ((encrypted_skip_reasons_and_reference_scenario cfgSkip benignEnv
      noPasswords none lockedPdf { shared := none, promptCount := 0 }
      decLocked (PageStream.ok [20, 21]) (by decide) rfl).1
      { shared := none, promptCount := 0 } (by decide)).2.2.2⟩

/-- The returned prompt count always equals the loop's final prompt count
when the queue passes the validity filter. -/
theorem merge_promptCount_eq (cfg : MergeConfig) (st : ServiceState)
    (env : MergeEnv) (files : List QueuedPDF) (out : String)
    (pwds : String → Option String) (cb : PromptCallback)
    (hfe : (files.filter (fun f => f.is_valid_for_merge)).isEmpty = false) :
    (MergeService.merge cfg st env files out pwds cb).promptCount
      = (runLoop cfg env pwds cb files 0 (initAcc st)).1.pw.promptCount := by
  unfold MergeService.merge
  dsimp only
  simp only [hfe, Bool.false_eq_true, if_false]
  split
  · rfl
  · split
    · rfl
    · split <;> rfl

/-- C8 (amended): `SkipEncrypted` never invokes the prompt callback in any
run; `PromptPerFile` with a callback and no cancellation invokes it exactly
once per entity that reaches the resolver encrypted without a supplied
password; `SharedPassword` invokes it at most once per run when every
response is marked use-for-all (a use-for-all response is cached and
suppresses all further prompts, but a response without the mark is not
cached, so the callback can be invoked again for a later encrypted file —
see the counterexample); and a supplied per-file password is returned
without prompting in every mode. -/
theorem password_prompting_by_mode :
    (∀ (cfg : MergeConfig) (st : ServiceState) (env : MergeEnv)
        (files : List QueuedPDF) (out : String)
        (pwds : String → Option String) (cb : PromptCallback),
      cfg.encryptionMode = EncryptionHandlingMode.skip →
      (MergeService.merge cfg st env files out pwds cb).promptCount = 0)
    ∧ (∀ (cfg : MergeConfig) (st : ServiceState) (env : MergeEnv)
        (files : List QueuedPDF) (out : String)
        (pwds : String → Option String) (f : Nat → String → PromptResponse),
      cfg.encryptionMode = EncryptionHandlingMode.promptEach →
      env.cancelFrom = none →
      (MergeService.merge cfg st env files out pwds (some f)).promptCount
        = files.countP (needsPrompt env pwds))
    ∧ (∀ (cfg : MergeConfig) (st : ServiceState) (env : MergeEnv)
        (files : List QueuedPDF) (out : String)
        (pwds : String → Option String) (g : Nat → String → PromptResponse),
      cfg.encryptionMode = EncryptionHandlingMode.singlePassword →
      (∀ n s, (g n s).useForAll = true ∧ (g n s).cancelled = false) →
      (MergeService.merge cfg st env files out pwds (some g)).promptCount ≤ 1)
    ∧ (∀ (cfg : MergeConfig) (p : QueuedPDF) (pwds : String → Option String)
        (cb : PromptCallback) (a : PwAcc) (pw : String),
      pwds p.filePath = some pw →
      MergeService.get_password_for_file cfg p pwds cb a = (some pw, a)) := by
  refine ⟨?_, ?_, ?_, ?_⟩
  · intro cfg st env files out pwds cb hm
    by_cases hfe : (files.filter (fun f => f.is_valid_for_merge)).isEmpty = true
    · rw [merge_novalid cfg st env files out pwds cb hfe]
    · simp only [Bool.not_eq_true] at hfe
      rw [merge_promptCount_eq cfg st env files out pwds cb hfe,
          runLoop_pw_skip cfg env pwds cb hm files 0 (initAcc st)]
      rfl
  · intro cfg st env files out pwds f hm hnc
    by_cases hfe : (files.filter (fun f => f.is_valid_for_merge)).isEmpty = true
    · rw [merge_novalid cfg st env files out pwds (some f) hfe]
      have hall : ∀ q ∈ files, q.is_valid_for_merge = false := by
        rw [List.isEmpty_iff, List.filter_eq_nil_iff] at hfe
        intro q hq
        have := hfe q hq
        revert this
        cases q.is_valid_for_merge <;> simp
      symm
      rw [List.countP_eq_zero]
      intro q hq
      simp [needsPrompt, hall q hq]
    · simp only [Bool.not_eq_true] at hfe
      rw [merge_promptCount_eq cfg st env files out pwds (some f) hfe,
          runLoop_eq_loopFold cfg env pwds (some f) hnc files 0 (initAcc st)]
      rw [loopFold_pw_promptEach cfg env pwds f hm files 0 (initAcc st)]
      simp [initAcc]
  · intro cfg st env files out pwds g hm hresp
    by_cases hfe : (files.filter (fun f => f.is_valid_for_merge)).isEmpty = true
    · rw [merge_novalid cfg st env files out pwds (some g) hfe]
      exact Nat.zero_le 1
    · simp only [Bool.not_eq_true] at hfe
      rw [merge_promptCount_eq cfg st env files out pwds (some g) hfe]
      exact runLoop_pw_single cfg env pwds (some g) hm
        (fun g' hg' => by
          injection hg' with hgg
          rw [← hgg]
          exact hresp)
        files 0 (initAcc st) (by simp [initAcc]) (by simp [initAcc])
  · intro cfg p pwds cb a pw h
    exact get_password_supplied cfg p pwds cb a pw h

/-- C8 counterexample: `SharedPassword` mode with two encrypted files and a
callback whose responses are not marked use-for-all invokes the callback
twice in one run, refuting "at most once per run". -/
theorem shared_password_reprompts_without_use_for_all :
    (MergeService.merge cfgSingle {} twoLockedEnv [lockedA, lockedB]
        "/out/m.pdf" noPasswords (some cbNoUseForAll)).promptCount = 2
    ∧ ¬((MergeService.merge cfgSingle {} twoLockedEnv [lockedA, lockedB]
        "/out/m.pdf" noPasswords (some cbNoUseForAll)).promptCount ≤ 1) := by
  refine ⟨by decide, by decide⟩

/-- C8 witness: each mode conjunct applied at a concrete run. -/
theorem password_prompting_by_mode_witness :
    (MergeService.merge cfgSkip {} twoLockedEnv [lockedA, lockedB] "/out/m.pdf"
        noPasswords (some cbNoUseForAll)).promptCount = 0
    ∧ (MergeService.merge cfgPromptEach {} twoLockedEnv [lockedA, lockedB]
        "/out/m.pdf" noPasswords (some cbNoUseForAll)).promptCount
      = ([lockedA, lockedB].countP (needsPrompt twoLockedEnv noPasswords))
    ∧ (MergeService.merge cfgSingle {} twoLockedEnv [lockedA, lockedB]
        "/out/m.pdf" noPasswords (some cbUseForAll)).promptCount ≤ 1
    ∧ MergeService.get_password_for_file cfgSingle lockedA
        (fun s => if s = "/docs/a.pdf" then some "pw" else none) none
        { shared := none, promptCount := 0 }
      = (some "pw", { shared := none, promptCount := 0 }) :=
  ⟨password_prompting_by_mode.1 cfgSkip {} twoLockedEnv [lockedA, lockedB]
      "/out/m.pdf" noPasswords (some cbNoUseForAll) rfl,
   password_prompting_by_mode.2.1 cfgPromptEach {} twoLockedEnv
      [lockedA, lockedB] "/out/m.pdf" noPasswords cbNoUseForAll rfl rfl,
   password_prompting_by_mode.2.2.1 cfgSingle {} twoLockedEnv
      [lockedA, lockedB] "/out/m.pdf" noPasswords cbUseForAll rfl
      (fun n s => ⟨rfl, rfl⟩),
   password_prompting_by_mode.2.2.2 cfgSingle lockedA
      (fun s => if s = "/docs/a.pdf" then some "pw" else none) none
      { shared := none, promptCount := 0 } "pw" (by decide)⟩

end PDFConsolidator
